import Mathlib

set_option maxRecDepth 100000

attribute [local semireducible] Rat.add Rat.sub Rat.mul Rat.inv

deriving instance DecidableEq for Except

/-!
Shallow embedding of the Interview AI Platform v3 core
(`interview-engine.js`, `scoring.js`, `ai.js`).

Modelling conventions:
* JavaScript numbers are modelled as `ℚ`.  Every computation the theorems
  below touch (integer qualities, averages of short integer lists, the
  behavioural-trust deductions) is exact in binary floating point as well,
  so no rounding discrepancy is introduced.
* A JavaScript object is modelled as a structure whose fields are `Option`s
  where the engine may leave a property absent (`undefined`).  Reading an
  absent property yields `none`; the truthiness tests of the source
  (`if (x && ...)`) are translated explicitly.
* Mutating operations are translated to explicit state passing: each
  operation takes the `Session`, its arguments and the outcome of every
  oracle (`ai.js`) call it can make, and returns
  `Except EngineErr Resp × Session`.  The returned session reflects all
  mutations performed before a throw, exactly as the in-place mutation of
  the source does.
* `Date.now()` is a `now : Nat` parameter; timestamps influence no
  scoring or control decision in the source.
-/

namespace InterviewAI

/-! ## Whitespace, normalisation and the dont-know detector
(`interview-engine.js`, `detectDontKnow`). -/

/-- Characters matched by the JavaScript regex class `\s`
(restricted to the ASCII range, which is all the phrase set uses). -/
def jsWhitespace (c : Char) : Bool :=
  c = ' ' || c = '\t' || c = '\n' || c = '\r' || c = '\x0b' || c = '\x0c'

/-- Source: `s.trim()` on a JavaScript string: strip whitespace from both ends
(on the ASCII range both JavaScript and this model strip exactly the
`jsWhitespace` characters). -/
def trimChars (l : List Char) : List Char :=
  ((l.dropWhile jsWhitespace).reverse.dropWhile jsWhitespace).reverse

/-- Source: `answer.toLowerCase().trim().replace(/[^a-z\s]/g, '')` from
`detectDontKnow`.  `Char.toLower` agrees with the JavaScript lowering on
the ASCII range. -/
def normalizeAnswer (answer : String) : String :=
  let lowered := answer.data.map Char.toLower
  let trimmed := trimChars lowered
  String.mk (trimmed.filter fun c => (decide ('a' ≤ c) && decide (c ≤ 'z')) || jsWhitespace c)

/-- Source: `hay.includes(needle)` on JavaScript strings: `needle` occurs as a
contiguous substring of `hay` (every suffix is tested, as
`String.prototype.includes` does). -/
def containsSub (needle : List Char) : List Char → Bool
  | [] => needle.isEmpty
  | c :: t => needle.isPrefixOf (c :: t) || containsSub needle t

/-- The fixed phrase set of `detectDontKnow`. -/
def idkPhrases : List String :=
  ["i dont know", "i do not know", "idk", "no idea",
   "not sure", "im not sure", "i am not sure",
   "i have no idea", "no clue", "cant answer",
   "skip", "pass", "dont remember", "i forgot"]

/-- Source: `detectDontKnow(answer)` from `interview-engine.js`: normalise, and if
the normalised text is shorter than 30 characters test every phrase for
substring containment (`normalized.includes(phrase)`). -/
def detectDontKnow (answer : String) : Bool :=
  let normalized := normalizeAnswer answer
  if normalized.length < 30 then
    idkPhrases.any fun phrase => containsSub phrase.data normalized.data
  else false

/-! ## Data model

Field names follow the JavaScript property names.  Properties that some
module reads but no module ever writes are still present (as `Option`
fields that stay `none`), because reading an absent property is
well-defined (`undefined`) in the source. -/

/-- The evaluation object produced by `ai.evaluateAnswer` (a parsed JSON
payload).  The documented shape carries `answer_quality`; `scoring.js`
reads a `quality` property, which the documented shape never contains,
so both are modelled. -/
structure Evaluation where
  answer_quality : Option ℚ := none
  quality : Option ℚ := none
  concept_coverage : Option (List String) := none
  confidence : Option ℚ := none
  clarity : Option String := none
  brief_feedback : Option String := none
deriving DecidableEq, Repr

/-- The evaluation object produced by `ai.evaluateCodingAnswer`. -/
structure CodingEvalObj where
  logic_understanding : Option String := none
  explanation_alignment : Option ℚ := none
  code_quality : Option ℚ := none
deriving DecidableEq, Repr

/-- The `slot.codeEvaluation` shape `scoring.js` reads
(`codeQuality`, `logic`); the engine never writes this property. -/
structure CodeEvalRead where
  codeQuality : Option ℚ := none
  logic : Option ℚ := none
deriving DecidableEq, Repr

/-- The `behaviorData` payload stored by `submitCode`
(`editPattern` is only serialised to the database and is omitted). -/
structure BehaviorData where
  pasteEvents : Option ℚ := none
  timeToFirstKeystroke : Option ℚ := none
  totalTimeMs : Option ℚ := none
deriving DecidableEq, Repr

/-- One entry of `session.behaviorSignals` as read by `scoring.js`
(only the `type` property is inspected).  No module of the repository
ever writes this session property. -/
structure Signal where
  type : String
deriving DecidableEq, Repr

/-- A follow-up record pushed by `submitAnswer`. -/
structure FollowUp where
  question : String
  answer : Option String := none
  evaluation : Option Evaluation := none
  depth : Nat
  timestamp : Nat := 0
  answerTimestamp : Option Nat := none
deriving DecidableEq, Repr

/-- Response recorded by `submitInterruptionResponse`. -/
structure InterruptionResponse where
  question : Option String
  answer : String
  timestamp : Nat
deriving DecidableEq, Repr

/-- The slot `type` discriminator strings. -/
inductive SlotType
  | spoken
  | mcq
  | coding
deriving DecidableEq, Repr

/-- A slot record.  `followUps` is `some` exactly for slots whose literal
in the source contains a `followUps: []` property (spoken slots); for MCQ
and coding slots the property is absent.  The block of fields after
`responseTimeMs` is read by `scoring.js` but never written by the
engine. -/
structure Slot where
  index : Nat
  type : SlotType
  question : Option String := none
  answer : Option String := none
  evaluation : Option Evaluation := none
  followUps : Option (List FollowUp) := none
  skipped : Bool := false
  timestamp : Nat := 0
  answerTimestamp : Option Nat := none
  -- mcq properties written by the engine
  options : Option (List String) := none
  correct : Option String := none
  mcqJustification : Option String := none
  mcqJustificationEval : Option Evaluation := none
  -- properties read by scoring.js, never written by any module
  isCorrect : Option Bool := none
  justification : Option String := none
  justificationEval : Option Evaluation := none
  codeEvaluation : Option CodeEvalRead := none
  responseTimeMs : Option ℚ := none
  -- coding properties written by the engine
  problem : Option String := none
  exampleInput : Option String := none
  exampleOutput : Option String := none
  code : Option String := none
  explanation : Option String := none
  codingEval : Option CodingEvalObj := none
  behaviorData : Option BehaviorData := none
  interruptionQuestion : Option String := none
  interruptionResponses : Option (List InterruptionResponse) := none
deriving DecidableEq, Repr

/-- The object returned by `ai.generateMCQ`, stored in
`session.currentMCQ` and mutated by `submitMCQAnswer`.  `correct` is
`Option` because the parse-path validation of `generateMCQ` checks only
`question` and `options`. -/
structure MCQObj where
  question : String
  options : List String
  correct : Option String := none
  topic : Option String := none
  selectedOption : Option String := none
  selectionTimeMs : Option ℚ := none
  justifyQuestion : Option String := none
deriving DecidableEq, Repr

/-- The object returned by `ai.generateCodingQuestion`, stored in
`session.currentCoding`. -/
structure CodingObj where
  problem : String
  example_input : Option String := none
  example_output : Option String := none
  topic : Option String := none
deriving DecidableEq, Repr

/-- Session states (`STATES` in `interview-engine.js`). -/
inductive SState
  | CREATED
  | WARMUP
  | CORE_QUESTION
  | FOLLOW_UP
  | MCQ
  | MCQ_JUSTIFY
  | CODING
  | CODING_INTERRUPT
  | COMPLETED
deriving DecidableEq, Repr

/-- Grade record returned by `getGrade`. -/
structure Grade where
  letter : String
  label : String
  color : String
deriving DecidableEq, Repr

/-- A risk flag.  The `detail` and `icon` presentation strings (template
interpolations of numbers) are omitted; no claim concerns them. -/
structure RiskFlag where
  type : String
  severity : String
  label : String
deriving DecidableEq, Repr

/-- The rounded per-dimension breakdown of the score report. -/
structure Breakdown where
  answerQuality : ℤ
  depthStability : ℤ
  mcqAccuracy : ℤ
  codingScore : ℤ
  behavioralTrust : ℤ
  consistency : ℤ
deriving DecidableEq, Repr

/-- The report returned by `computeScore`. -/
structure ScoreReport where
  overall : ℤ
  grade : Grade
  breakdown : Breakdown
  riskFlags : List RiskFlag
  totalAnswered : Nat
  totalSkipped : Nat
deriving DecidableEq, Repr

/-- A session object as created by `createSession` and mutated by the
engine.  `behaviorSignals` and `score` start absent. -/
structure Session where
  id : String
  role : String
  candidateName : String
  difficulty : String
  state : SState
  currentSlotIndex : Nat
  currentFollowUpDepth : Nat
  coveredTopics : List String
  slots : List Slot
  startTime : Nat
  endTime : Option Nat
  currentMCQ : Option MCQObj
  mcqJustifyPhase : Option String
  currentCoding : Option CodingObj
  codingInterrupted : Bool
  score : Option ScoreReport := none
  behaviorSignals : Option (List Signal) := none
deriving DecidableEq, Repr

/-! ## Scoring engine (`scoring.js`) -/

/-- Truthiness of a possibly-absent JavaScript number: absent (`none`)
and `0` are falsy. -/
def truthyQ : Option ℚ → Bool
  | none => false
  | some x => x != 0

/-- Truthiness of a possibly-absent JavaScript boolean. -/
def truthyB : Option Bool → Bool
  | none => false
  | some b => b

/-- Source: `Math.round`: round half toward positive infinity. -/
def jsRound (q : ℚ) : ℤ := ⌊q + 1 / 2⌋

/-- Scoring weights (`WEIGHTS` in `scoring.js`). -/
def weightAnswerQuality : ℚ := 30 / 100
def weightDepthStability : ℚ := 20 / 100
def weightMcqAccuracy : ℚ := 15 / 100
def weightCodingScore : ℚ := 15 / 100
def weightBehavioralTrust : ℚ := 10 / 100
def weightConsistency : ℚ := 10 / 100

/-- The quality scores one spoken slot contributes in
`computeAnswerQuality`: the main `slot.evaluation.quality` when present
and truthy, then every truthy `fu.evaluation.quality` of its follow-ups
(skipped entirely when the `followUps` property is absent). -/
def answerQualityScores (slot : Slot) : List ℚ :=
  (match slot.evaluation with
   | none => []
   | some ev => match ev.quality with
     | none => []
     | some q => if q != 0 then [q] else []) ++
  (match slot.followUps with
   | none => []
   | some fus => fus.filterMap fun fu =>
       match fu.evaluation with
       | none => none
       | some ev => match ev.quality with
         | none => none
         | some q => if q != 0 then some q else none)

/-- Source: `computeAnswerQuality(spokenSlots)` from `scoring.js`. -/
def computeAnswerQuality (spokenSlots : List Slot) : ℚ :=
  if spokenSlots.length = 0 then 0
  else
    let scores := spokenSlots.flatMap answerQualityScores
    if scores.length = 0 then 0
    else (scores.sum / scores.length) * 10

/-- The drop-to-stability-point map of `computeDepthStability`. -/
def stabilityPoint (mainScore fuScore : ℚ) : ℚ :=
  let drop := mainScore - fuScore
  if drop ≤ 0 then 100
  else if drop ≤ 2 then 70
  else if drop ≤ 4 then 40
  else 10

/-- Stability points contributed by one spoken slot in
`computeDepthStability`: nothing unless the slot has follow-ups and a
truthy main `evaluation.quality`; otherwise one point per follow-up with
a truthy `evaluation.quality`. -/
def stabilitySlotPoints (slot : Slot) : List ℚ :=
  match slot.followUps with
  | none => []
  | some fus =>
    if fus.length = 0 then []
    else match slot.evaluation with
      | none => []
      | some ev => match ev.quality with
        | none => []
        | some mainScore =>
          if mainScore != 0 then
            let followUpScores := fus.filterMap fun fu =>
              match fu.evaluation with
              | none => none
              | some fev => match fev.quality with
                | none => none
                | some q => if q != 0 then some q else none
            followUpScores.map (stabilityPoint mainScore)
          else []

/-- Source: `computeDepthStability(spokenSlots)` from `scoring.js`. -/
def computeDepthStability (spokenSlots : List Slot) : ℚ :=
  if spokenSlots.length = 0 then 50
  else
    let stabilityScores := spokenSlots.flatMap stabilitySlotPoints
    if stabilityScores.length = 0 then 60
    else stabilityScores.sum / stabilityScores.length

/-- Per-slot score of `computeMCQAccuracy`: 50 for a truthy
`slot.isCorrect`, plus `quality * 5` when `slot.justificationEval` holds
a truthy `quality`, else 25 when `slot.isCorrect`. -/
def mcqSlotScore (slot : Slot) : ℚ :=
  let correctPart : ℚ := if truthyB slot.isCorrect then 50 else 0
  let justifyPart : ℚ :=
    match slot.justificationEval with
    | some je =>
      match je.quality with
      | some q => if q != 0 then q * 5 else (if truthyB slot.isCorrect then 25 else 0)
      | none => if truthyB slot.isCorrect then 25 else 0
    | none => if truthyB slot.isCorrect then 25 else 0
  correctPart + justifyPart

/-- Source: `computeMCQAccuracy(mcqSlots)` from `scoring.js`. -/
def computeMCQAccuracy (mcqSlots : List Slot) : ℚ :=
  if mcqSlots.length = 0 then 50
  else (mcqSlots.map mcqSlotScore).sum / mcqSlots.length

/-- Per-slot contribution of `computeCodingScore`: zero when the
`codeEvaluation` property is absent, else the mean of `codeQuality || 0`
and `logic || 0` times 10. -/
def codingSlotScore (slot : Slot) : ℚ :=
  match slot.codeEvaluation with
  | none => 0
  | some ce => ((ce.codeQuality.getD 0 + ce.logic.getD 0) / 2) * 10

/-- Source: `computeCodingScore(codingSlots)` from `scoring.js`. -/
def computeCodingScore (codingSlots : List Slot) : ℚ :=
  if codingSlots.length = 0 then 50
  else (codingSlots.map codingSlotScore).sum / codingSlots.length

/-- The intermediate `behavior` object of the behavioural-trust loop:
`slot.behaviorData || {}`. -/
def slotBehavior (slot : Slot) : BehaviorData :=
  slot.behaviorData.getD {}

/-- Instant-coding deduction for one coding slot:
`behavior.timeToFirstKeystroke && behavior.timeToFirstKeystroke < 3000`. -/
def instantCodingDeduction (slot : Slot) : ℚ :=
  let b := slotBehavior slot
  if truthyQ b.timeToFirstKeystroke && decide (b.timeToFirstKeystroke.getD 0 < 3000)
  then 20 else 0

/-- Fast-total-time deduction for one coding slot:
`behavior.totalTimeMs && behavior.totalTimeMs < 30000`. -/
def fastTotalDeduction (slot : Slot) : ℚ :=
  let b := slotBehavior slot
  if truthyQ b.totalTimeMs && decide (b.totalTimeMs.getD 0 < 30000)
  then 15 else 0

/-- Filter `s.type === 'spoken' && !s.skipped` used by `computeScore`
and `computeBehavioralTrust`. -/
def isActiveSpoken (s : Slot) : Bool := s.type = SlotType.spoken && !s.skipped

/-- Filter `s.type === 'mcq' && !s.skipped`. -/
def isActiveMcq (s : Slot) : Bool := s.type = SlotType.mcq && !s.skipped

/-- Filter `s.type === 'coding' && !s.skipped`. -/
def isActiveCoding (s : Slot) : Bool := s.type = SlotType.coding && !s.skipped

/-- Source: `computeBehavioralTrust(session)` from `scoring.js`: start at 100,
deduct for paste entries of `session.behaviorSignals`, per coding slot
for instant and fast-total signals, and once for more than three fast
spoken answers; floor at 0. -/
def computeBehavioralTrust (session : Session) : ℚ :=
  let trust : ℚ := 100
  let signals := session.behaviorSignals.getD []
  let pasteCount := (signals.filter fun s => s.type = "paste").length
  let trust := if pasteCount > 0 then trust - min 30 ((pasteCount : ℚ) * 15) else trust
  let codingSlots := session.slots.filter isActiveCoding
  let trust := codingSlots.foldl
    (fun t slot => t - instantCodingDeduction slot - fastTotalDeduction slot) trust
  let spokenSlots := session.slots.filter isActiveSpoken
  let fastAnswers := (spokenSlots.filter fun s =>
    truthyQ s.responseTimeMs && decide (s.responseTimeMs.getD 0 < 5000)).length
  let trust := if fastAnswers > 3 then trust - 15 else trust
  max 0 trust

/-- Source: `computeConsistency(spokenSlots, mcqSlots)` from `scoring.js`. -/
def computeConsistency (spokenSlots mcqSlots : List Slot) : ℚ :=
  if spokenSlots.length = 0 || mcqSlots.length = 0 then 70
  else
    let spokenAvg := computeAnswerQuality spokenSlots / 10
    let mcqAvg := computeMCQAccuracy mcqSlots / 10
    let gap := |spokenAvg - mcqAvg|
    if gap ≤ 2 then 100
    else if gap ≤ 4 then 70
    else if gap ≤ 6 then 40
    else 15

/-! ### Risk flags (`detectRiskFlags`) -/

/-- Confidence-decay flag for one spoken slot: requires the
`evaluation` and `followUps` properties, `quality || 0` at least 7, at
least one truthy follow-up quality, and a follow-up average of at
most 3. -/
def confidenceDecayFlags (slot : Slot) : List RiskFlag :=
  match slot.evaluation, slot.followUps with
  | some ev, some fus =>
    let mainQ := ev.quality.getD 0
    let fuScores := fus.filterMap fun fu =>
      match fu.evaluation with
      | none => none
      | some fev => match fev.quality with
        | none => none
        | some q => if q != 0 then some q else none
    if mainQ ≥ 7 ∧ fuScores.length > 0 then
      let avgFu := fuScores.sum / fuScores.length
      if avgFu ≤ 3 then
        [{ type := "confidence_decay", severity := "warning",
           label := "Shallow Understanding" }]
      else []
    else []
  | _, _ => []

/-- Instant-coding flag for one coding slot (same guard as the trust
deduction). -/
def instantCodingFlags (slot : Slot) : List RiskFlag :=
  let b := slotBehavior slot
  if truthyQ b.timeToFirstKeystroke && decide (b.timeToFirstKeystroke.getD 0 < 3000) then
    [{ type := "instant_coding", severity := "danger",
       label := "Suspiciously Fast Coding" }]
  else []

/-- MCQ-spoken mismatch flag for one MCQ slot. -/
def mcqMismatchFlags (slot : Slot) : List RiskFlag :=
  if truthyB slot.isCorrect then
    match slot.justificationEval with
    | some je =>
      match je.quality with
      | some q =>
        if q != 0 ∧ q ≤ 3 then
          [{ type := "mcq_spoken_mismatch", severity := "warning",
             label := "Surface Knowledge" }]
        else []
      | none => []
    | none => []
  else []

/-- Source: `s.split(/\s+/)` on a JavaScript string: runs of whitespace are
collapsed, with an empty leading (trailing) entry when the string starts
(ends) with whitespace, and `[""]` for the empty string. -/
def jsSplitWs (s : String) : List String :=
  match s.data with
  | [] => [""]
  | c :: _ =>
    let pieces := s.data.foldr
      (fun ch acc =>
        if jsWhitespace ch then [] :: acc
        else match acc with
          | [] => [[ch]]
          | w :: ws => (ch :: w) :: ws)
      ([] : List (List Char))
    let parts := (pieces.filter fun p => !p.isEmpty).map String.mk
    let withLead := if jsWhitespace c then "" :: parts else parts
    match s.data.getLast? with
    | some d => if jsWhitespace d then withLead ++ [""] else withLead
    | none => withLead

/-- Word lengths gathered from spoken answers for the vocabulary-jump
flag (`slot.answer && slot.answer !== '[SKIPPED]'`). -/
def spokenWordLengths (spokenSlots : List Slot) : List ℚ :=
  spokenSlots.flatMap fun slot =>
    match slot.answer with
    | none => []
    | some a =>
      if a ≠ "" ∧ a ≠ "[SKIPPED]" then (jsSplitWs a).map fun w => (w.length : ℚ)
      else []

/-- Word lengths gathered from `slot.justification` (a property the
engine never writes) for the vocabulary-jump flag. -/
def justificationWordLengths (mcqSlots : List Slot) : List ℚ :=
  mcqSlots.flatMap fun slot =>
    match slot.justification with
    | none => []
    | some j =>
      if j ≠ "" then (jsSplitWs j).map fun w => (w.length : ℚ)
      else []

/-- Vocabulary-jump flag of `detectRiskFlags`. -/
def vocabularyJumpFlags (spokenSlots mcqSlots : List Slot) : List RiskFlag :=
  let sw := spokenWordLengths spokenSlots
  let jw := justificationWordLengths mcqSlots
  if sw.length > 10 ∧ jw.length > 5 then
    let avgSpoken := sw.sum / sw.length
    let avgJustify := jw.sum / jw.length
    if avgJustify > avgSpoken + 5 / 2 then
      [{ type := "vocabulary_jump", severity := "warning",
         label := "Vocabulary Inconsistency" }]
    else []
  else []

/-- Source: `detectRiskFlags(session, spokenSlots, mcqSlots, codingSlots)` from
`scoring.js`, in source order. -/
def detectRiskFlags (session : Session) (spokenSlots mcqSlots codingSlots : List Slot) :
    List RiskFlag :=
  let signals := session.behaviorSignals.getD []
  let pasteEvents := signals.filter fun s => s.type = "paste"
  (spokenSlots.flatMap confidenceDecayFlags) ++
  (if pasteEvents.length > 0 then
     [{ type := "paste_detected", severity := "danger", label := "Code Pasted" }]
   else []) ++
  (codingSlots.flatMap instantCodingFlags) ++
  vocabularyJumpFlags spokenSlots mcqSlots ++
  (mcqSlots.flatMap mcqMismatchFlags)

/-- Source: `getGrade(score)` from `scoring.js`. -/
def getGrade (score : ℤ) : Grade :=
  if score ≥ 90 then { letter := "A+", label := "Exceptional", color := "#00d2ff" }
  else if score ≥ 80 then { letter := "A", label := "Excellent", color := "#00ff88" }
  else if score ≥ 70 then { letter := "B+", label := "Very Good", color := "#88ff00" }
  else if score ≥ 60 then { letter := "B", label := "Good", color := "#c8ff00" }
  else if score ≥ 50 then { letter := "C+", label := "Average", color := "#ffcc00" }
  else if score ≥ 40 then { letter := "C", label := "Below Average", color := "#ff9900" }
  else if score ≥ 30 then { letter := "D", label := "Needs Improvement", color := "#ff6600" }
  else { letter := "F", label := "Not Ready", color := "#ff3333" }

/-- Source: `computeScore(session)` from `scoring.js`. -/
def computeScore (session : Session) : ScoreReport :=
  let slots := session.slots
  let spokenSlots := slots.filter isActiveSpoken
  let mcqSlots := slots.filter isActiveMcq
  let codingSlots := slots.filter isActiveCoding
  let answerQuality := computeAnswerQuality spokenSlots
  let depthStability := computeDepthStability spokenSlots
  let mcqAccuracy := computeMCQAccuracy mcqSlots
  let codingScore := computeCodingScore codingSlots
  let behavioralTrust := computeBehavioralTrust session
  let consistency := computeConsistency spokenSlots mcqSlots
  let composite := jsRound
    (answerQuality * weightAnswerQuality +
     depthStability * weightDepthStability +
     mcqAccuracy * weightMcqAccuracy +
     codingScore * weightCodingScore +
     behavioralTrust * weightBehavioralTrust +
     consistency * weightConsistency)
  let riskFlags := detectRiskFlags session spokenSlots mcqSlots codingSlots
  { overall := composite
    grade := getGrade composite
    breakdown :=
      { answerQuality := jsRound answerQuality
        depthStability := jsRound depthStability
        mcqAccuracy := jsRound mcqAccuracy
        codingScore := jsRound codingScore
        behavioralTrust := jsRound behavioralTrust
        consistency := jsRound consistency }
    riskFlags := riskFlags
    totalAnswered := (slots.filter fun s => !s.skipped).length
    totalSkipped := (slots.filter fun s => s.skipped).length }

/-! ## Interview state machine (`interview-engine.js`)

Each operation returns `Except EngineErr EngineResp × Session`: the
`Except` is the thrown-or-returned outcome and the second component is
the stored session with every mutation performed before a potential
throw, mirroring the in-place mutation of the source.  Oracle (`ai.js`)
calls are parameters of type `Except Unit _`: `.error` is an exception
propagated out of the `ai` call (for example an OpenRouter HTTP
failure thrown by `chatCompletion`), `.ok` its returned value. -/

/-- Errors thrown by the engine.  `invalidState` covers the explicit
state-guard throws (the InvalidStateTransition taxonomy of the spec,
including the SessionNotFound-style message strings); `typeError` is a
TypeError raised by accessing a property of `undefined`/`null`;
`oracleFailure` is an exception propagated from an `ai.js` call. -/
inductive EngineErr
  | invalidState (msg : String)
  | typeError
  | oracleFailure
deriving DecidableEq, Repr

/-- Return payloads of the operations (fields irrelevant to the claims,
such as `totalQuestions`, are omitted). -/
inductive EngineResp
  | started (question : String) (questionNumber : Nat)
  | followUpResp (question : String) (followUpDepth : Nat)
  | spokenPrompt (question : String) (questionNumber : Nat)
  | mcqPrompt (question : String) (options : List String) (questionNumber : Nat)
  | codingPrompt (problem : String) (questionNumber : Nat)
  | completed (score : ScoreReport)
  | mcqJustifyPrompt (question : String) (selected : String) (isCorrect : Bool)
  | codingResume
  | codingInterrupt (question : String)
  | nullResp
deriving DecidableEq, Repr

/-- Source: `V2_CONFIG.totalSlots`. -/
def totalSlots : Nat := 10

/-- Source: `V2_CONFIG.maxFollowUps`. -/
def maxFollowUps : Nat := 2

/-- Source: `V2_CONFIG.slotTypes`. -/
def slotTypes : List SlotType :=
  [SlotType.spoken, SlotType.spoken, SlotType.spoken, SlotType.mcq,
   SlotType.spoken, SlotType.spoken, SlotType.mcq, SlotType.spoken,
   SlotType.coding, SlotType.spoken]

/-- Oracle outcomes `advanceToNextSlot` may consume when generating the
next slot. -/
structure NextSlotOracle where
  question : Except Unit String
  mcq : Except Unit MCQObj
  coding : Except Unit CodingObj

/-- Source: `s.charAt(0)` on a JavaScript string. -/
def charAt0 (s : String) : String :=
  match s.data with
  | [] => ""
  | c :: _ => String.mk [c]

/-- Source: `selectedOption.charAt(0) === mcq.correct` (false when `correct` is
absent, as a string never strictly equals `undefined`). -/
def mcqIsCorrect (selectedOption : String) (correct : Option String) : Bool :=
  match correct with
  | some c => charAt0 selectedOption = c
  | none => false

/-- Source: `createSession(role, candidateName, difficulty)`. -/
def createSession (id role candidateName difficulty : String) (now : Nat) : Session :=
  { id := id, role := role, candidateName := candidateName, difficulty := difficulty,
    state := SState.CREATED, currentSlotIndex := 0, currentFollowUpDepth := 0,
    coveredTopics := [], slots := [], startTime := now, endTime := none,
    currentMCQ := none, mcqJustifyPhase := none, currentCoding := none,
    codingInterrupted := false }

/-- Source: `getLastEvalQuality(slot, followUpDepth)`:
`lastFu?.evaluation?.answer_quality ?? 5` respectively
`slot.evaluation?.answer_quality ?? 5`.  (The source would throw if the
`followUps` property were absent with positive depth, but its only call
site has already dereferenced that property; the optional-chaining
translation is equivalent there.) -/
def getLastEvalQuality (slot : Slot) (followUpDepth : Nat) : ℚ :=
  if followUpDepth > 0 then
    (((slot.followUps.getD [])[followUpDepth - 1]?).bind
        fun fu => fu.evaluation.bind fun ev => ev.answer_quality).getD 5
  else
    (slot.evaluation.bind fun ev => ev.answer_quality).getD 5

/-- Source: `completeInterview(session)`: stamp `COMPLETED`/`endTime`, compute
and attach the score, return it.  (Database writes and the transcript
snapshot are external I/O and are not modelled.) -/
def completeInterview (s : Session) (now : Nat) : Except EngineErr EngineResp × Session :=
  let s := { s with state := SState.COMPLETED, endTime := some now }
  let scoreResult := computeScore s
  let s := { s with score := some scoreResult }
  (.ok (.completed scoreResult), s)

/-- Source: `generateSpokenSlot(session, slotIndex, difficulty)`.  The state is
set before the oracle call, exactly as in the source. -/
def generateSpokenSlot (s : Session) (slotIndex : Nat) (difficulty : String)
    (oracleQ : Except Unit String) (now : Nat) : Except EngineErr EngineResp × Session :=
  let _ := difficulty
  let s := { s with state := if slotIndex = 0 then SState.WARMUP else SState.CORE_QUESTION }
  match oracleQ with
  | .error _ => (.error .oracleFailure, s)
  | .ok question =>
    let slot : Slot :=
      { index := slotIndex, type := SlotType.spoken, question := some question,
        answer := none, evaluation := none, followUps := some [], timestamp := now }
    let s := { s with slots := s.slots ++ [slot] }
    (.ok (.spokenPrompt question (slotIndex + 1)), s)

/-- Source: `generateMCQSlot(session, difficulty)`. -/
def generateMCQSlot (s : Session) (difficulty : String)
    (oracleM : Except Unit MCQObj) (now : Nat) : Except EngineErr EngineResp × Session :=
  let _ := difficulty
  let s := { s with state := SState.MCQ }
  match oracleM with
  | .error _ => (.error .oracleFailure, s)
  | .ok mcq =>
    let s := { s with currentMCQ := some mcq }
    let s := match mcq.topic with
      | some t => if t ≠ "" then { s with coveredTopics := s.coveredTopics ++ [t] } else s
      | none => s
    let slot : Slot :=
      { index := s.currentSlotIndex, type := SlotType.mcq,
        question := some mcq.question, options := some mcq.options,
        correct := mcq.correct, timestamp := now }
    let s := { s with slots := s.slots ++ [slot] }
    (.ok (.mcqPrompt mcq.question mcq.options (s.currentSlotIndex + 1)), s)

/-- Source: `generateCodingSlot(session, difficulty)`.  `codingInterrupted` is
reset before the oracle call, as in the source. -/
def generateCodingSlot (s : Session) (difficulty : String)
    (oracleC : Except Unit CodingObj) (now : Nat) : Except EngineErr EngineResp × Session :=
  let _ := difficulty
  let s := { s with state := SState.CODING, codingInterrupted := false }
  match oracleC with
  | .error _ => (.error .oracleFailure, s)
  | .ok coding =>
    let s := { s with currentCoding := some coding }
    let s := match coding.topic with
      | some t => if t ≠ "" then { s with coveredTopics := s.coveredTopics ++ [t] } else s
      | none => s
    let slot : Slot :=
      { index := s.currentSlotIndex, type := SlotType.coding,
        problem := some coding.problem, exampleInput := coding.example_input,
        exampleOutput := coding.example_output, timestamp := now }
    let s := { s with slots := s.slots ++ [slot] }
    (.ok (.codingPrompt coding.problem (s.currentSlotIndex + 1)), s)

/-- Source: `advanceToNextSlot(session)`: reset the follow-up depth, advance the
cursor, then complete or generate the next slot according to
`V2_CONFIG.slotTypes`. -/
def advanceToNextSlot (s : Session) (o : NextSlotOracle) (now : Nat) :
    Except EngineErr EngineResp × Session :=
  let s := { s with currentFollowUpDepth := 0, currentSlotIndex := s.currentSlotIndex + 1 }
  if s.currentSlotIndex ≥ totalSlots then completeInterview s now
  else
    let slotIndex := s.currentSlotIndex
    let difficulty := if s.difficulty ≠ "" then s.difficulty else "medium"
    match slotTypes[slotIndex]? with
    | some SlotType.mcq => generateMCQSlot s difficulty o.mcq now
    | some SlotType.coding => generateCodingSlot s difficulty o.coding now
    | _ => generateSpokenSlot s slotIndex difficulty o.question now

/-- Source: `startInterview(sessionId)` (the session-store lookup is outside the
model; the operation acts on the resolved session). -/
def startInterview (s : Session) (oracleQ : Except Unit String) (now : Nat) :
    Except EngineErr EngineResp × Session :=
  if s.state ≠ SState.CREATED then (.error (.invalidState "Interview already started"), s)
  else
    let s := { s with state := SState.WARMUP, currentSlotIndex := 0 }
    match oracleQ with
    | .error _ => (.error .oracleFailure, s)
    | .ok question =>
      let slot : Slot :=
        { index := 0, type := SlotType.spoken, question := some question,
          answer := none, evaluation := none, followUps := some [], timestamp := now }
      let s := { s with slots := s.slots ++ [slot] }
      (.ok (.started question 1), s)

/-- The tail of `submitAnswer` after the answer and its evaluation have
been recorded: dont-know detection and the follow-up decision.
`currentSlot` is the already-updated slot (the source reads it through
the same object reference). -/
def submitAnswerContinue (s : Session) (currentSlot : Slot) (answer : String)
    (fuOracle : Except Unit String) (o : NextSlotOracle) (now : Nat) :
    Except EngineErr EngineResp × Session :=
  let isIdkAnswer := detectDontKnow answer
  let lastQuality := getLastEvalQuality currentSlot s.currentFollowUpDepth
  let shouldSkipFollowUps := isIdkAnswer || decide (lastQuality ≤ 2)
  if s.currentFollowUpDepth < maxFollowUps ∧ shouldSkipFollowUps = false then
    let s := { s with currentFollowUpDepth := s.currentFollowUpDepth + 1,
                      state := SState.FOLLOW_UP }
    match fuOracle with
    | .error _ => (.error .oracleFailure, s)
    | .ok followUpQuestion =>
      match currentSlot.followUps with
      | none => (.error .typeError, s)  -- `push` on an absent followUps property
      | some fus =>
        let newFu : FollowUp :=
          { question := followUpQuestion, answer := none, evaluation := none,
            depth := s.currentFollowUpDepth, timestamp := now }
        let slot2 := { currentSlot with followUps := some (fus ++ [newFu]) }
        let s := { s with slots := s.slots.set s.currentSlotIndex slot2 }
        (.ok (.followUpResp followUpQuestion s.currentFollowUpDepth), s)
  else
    advanceToNextSlot s o now

/-- Source: `submitAnswer(sessionId, answer)`. -/
def submitAnswer (s : Session) (answer : String)
    (evalOracle : Except Unit Evaluation) (fuOracle : Except Unit String)
    (o : NextSlotOracle) (now : Nat) : Except EngineErr EngineResp × Session :=
  if s.state = SState.COMPLETED then
    (.error (.invalidState "Interview already completed"), s)
  else
    let slotIndex := s.currentSlotIndex
    match s.slots[slotIndex]? with
    | none => (.error .typeError, s)  -- property access on an undefined slot
    | some currentSlot =>
      if s.currentFollowUpDepth > 0 then
        let fuIndex := s.currentFollowUpDepth - 1
        match currentSlot.followUps with
        | none => (.error .typeError, s)
        | some fus =>
          match fus[fuIndex]? with
          | none => (.error .typeError, s)
          | some fu =>
            let fu1 := { fu with answer := some answer, answerTimestamp := some now }
            let slot1 := { currentSlot with followUps := some (fus.set fuIndex fu1) }
            let s1 := { s with slots := s.slots.set slotIndex slot1 }
            match evalOracle with
            | .error _ => (.error .oracleFailure, s1)
            | .ok evaluation =>
              let fu2 := { fu1 with evaluation := some evaluation }
              let slot2 := { currentSlot with followUps := some (fus.set fuIndex fu2) }
              let s2 := { s with slots := s.slots.set slotIndex slot2 }
              submitAnswerContinue s2 slot2 answer fuOracle o now
      else
        let slot1 := { currentSlot with answer := some answer, answerTimestamp := some now }
        let s1 := { s with slots := s.slots.set slotIndex slot1 }
        match evalOracle with
        | .error _ => (.error .oracleFailure, s1)
        | .ok evaluation =>
          let slot2 := { slot1 with evaluation := some evaluation }
          let s2 := { s1 with slots := s1.slots.set slotIndex slot2 }
          let s2 := match evaluation.concept_coverage with
            | some cc =>
              if cc.length > 0 then { s2 with coveredTopics := s2.coveredTopics ++ cc }
              else s2
            | none => s2
          submitAnswerContinue s2 slot2 answer fuOracle o now

/-- Source: `submitMCQAnswer(sessionId, selectedOption, selectionTimeMs)`. -/
def submitMCQAnswer (s : Session) (selectedOption : String) (selectionTimeMs : ℚ)
    (fuOracle : Except Unit String) (now : Nat) : Except EngineErr EngineResp × Session :=
  let _ := now
  if s.state ≠ SState.MCQ then (.error (.invalidState "Not in MCQ state"), s)
  else
    match s.currentMCQ with
    | none => (.error .typeError, s)  -- property write on a null currentMCQ
    | some mcq =>
      let mcq1 := { mcq with selectedOption := some selectedOption,
                             selectionTimeMs := some selectionTimeMs }
      let s1 := { s with currentMCQ := some mcq1, state := SState.MCQ_JUSTIFY,
                         mcqJustifyPhase := some "why_chose" }
      match fuOracle with
      | .error _ => (.error .oracleFailure, s1)
      | .ok followUp =>
        let mcq2 := { mcq1 with justifyQuestion := some followUp }
        let s2 := { s1 with currentMCQ := some mcq2 }
        (.ok (.mcqJustifyPrompt followUp selectedOption
               (mcqIsCorrect selectedOption mcq.correct)), s2)

/-- Source: `submitMCQJustification(sessionId, justification)`. -/
def submitMCQJustification (s : Session) (justification : String)
    (evalOracle : Except Unit Evaluation) (o : NextSlotOracle) (now : Nat) :
    Except EngineErr EngineResp × Session :=
  if s.state ≠ SState.MCQ_JUSTIFY then (.error (.invalidState "Not in MCQ justify state"), s)
  else
    match s.currentMCQ with
    | none => (.error .typeError, s)  -- `mcq.justifyQuestion` on null
    | some _ =>
      match evalOracle with
      | .error _ => (.error .oracleFailure, s)
      | .ok evaluation =>
        match s.slots[s.currentSlotIndex]? with
        | none => (.error .typeError, s)
        | some slot =>
          let slot := { slot with mcqJustification := some justification,
                                  mcqJustificationEval := some evaluation }
          let s := { s with slots := s.slots.set s.currentSlotIndex slot }
          advanceToNextSlot s o now

/-- Source: `submitCode(sessionId, code, explanation, behaviorData)`.  Note the
absence of any state guard in the source. -/
def submitCode (s : Session) (code explanation : String) (behaviorData : Option BehaviorData)
    (evalOracle : Except Unit CodingEvalObj) (o : NextSlotOracle) (now : Nat) :
    Except EngineErr EngineResp × Session :=
  let _ := now
  match s.currentCoding with
  | none => (.error .typeError, s)  -- `coding.problem` on null
  | some _ =>
    match evalOracle with
    | .error _ => (.error .oracleFailure, s)
    | .ok evaluation =>
      match s.slots[s.currentSlotIndex]? with
      | none => (.error .typeError, s)  -- `slot.code = ...` on undefined
      | some slot =>
        let slot := { slot with code := some code, explanation := some explanation,
                                codingEval := some evaluation, behaviorData := behaviorData }
        let s := { s with slots := s.slots.set s.currentSlotIndex slot }
        advanceToNextSlot s o now

/-- Source: `triggerCodingInterruption(sessionId, currentCode)`. -/
def triggerCodingInterruption (s : Session) (currentCode : String)
    (oracleQ : Except Unit String) (now : Nat) : Except EngineErr EngineResp × Session :=
  let _ := currentCode
  let _ := now
  if s.codingInterrupted then (.ok .nullResp, s)
  else
    match s.currentCoding with
    | none => (.error .typeError, s)  -- `session.currentCoding.problem` on null
    | some _ =>
      match oracleQ with
      | .error _ => (.error .oracleFailure, s)
      | .ok question =>
        match s.slots[s.currentSlotIndex]? with
        | none => (.error .typeError, s)
        | some slot =>
          let slot := { slot with interruptionQuestion := some question }
          let s := { s with slots := s.slots.set s.currentSlotIndex slot,
                            state := SState.CODING_INTERRUPT }
          (.ok (.codingInterrupt question), s)

/-- Source: `submitInterruptionResponse(sessionId, response)`. -/
def submitInterruptionResponse (s : Session) (response : String) (now : Nat) :
    Except EngineErr EngineResp × Session :=
  match s.slots[s.currentSlotIndex]? with
  | none => (.error .typeError, s)  -- property access on an undefined slot
  | some slot =>
    let responses := slot.interruptionResponses.getD []
    let entry : InterruptionResponse :=
      { question := slot.interruptionQuestion, answer := response, timestamp := now }
    let slot := { slot with interruptionResponses := some (responses ++ [entry]) }
    let s := { s with slots := s.slots.set s.currentSlotIndex slot,
                      codingInterrupted := true, state := SState.CODING }
    (.ok .codingResume, s)

/-- Source: `skipQuestion(sessionId)`: mark the last created slot skipped (when
one exists) and advance unconditionally.  Note the absence of any state
guard in the source. -/
def skipQuestion (s : Session) (o : NextSlotOracle) (now : Nat) :
    Except EngineErr EngineResp × Session :=
  let s :=
    match s.slots.getLast? with
    | none => s
    | some last =>
      let last := { last with skipped := true, answer := some "[SKIPPED]" }
      { s with slots := s.slots.set (s.slots.length - 1) last }
  advanceToNextSlot s o now

/-! ## Oracle wrapper (`ai.js`)

`chatCompletion` throws on an OpenRouter HTTP failure; the JSON-returning
helpers (`evaluateAnswer`, `evaluateCodingAnswer`, `generateMCQ`,
`generateCodingQuestion`) wrap only the best-effort JSON extraction in a
`try` block.  The extraction (`raw.match(/\{[\s\S]*\}/)` plus
`JSON.parse`) is abstracted as a `parse` parameter. -/

/-- The fallback object returned by `ai.evaluateAnswer` when the payload
cannot be parsed. -/
def defaultEvaluation : Evaluation :=
  { answer_quality := some 5, concept_coverage := some [],
    confidence := some (1 / 2), clarity := some "medium",
    brief_feedback := some "Could not parse AI evaluation." }

/-- Source: `ai.evaluateAnswer(question, answer)`, modelled over the outcome of
its `chatCompletion` call.  The call sits outside the `try` block of the
source, so its exception propagates; a parse failure falls through to
the neutral default. -/
def evaluateAnswerAI (call : Except Unit String) (parse : String → Option Evaluation) :
    Except Unit Evaluation :=
  match call with
  | .error e => .error e
  | .ok raw =>
    match parse raw with
    | some ev => .ok ev
    | none => .ok defaultEvaluation

/-- The fallback object returned by `ai.evaluateCodingAnswer` when the
payload cannot be parsed. -/
def defaultCodingEvaluation : CodingEvalObj :=
  { logic_understanding := some "medium", explanation_alignment := some (1 / 2),
    code_quality := some 5 }

/-- Source: `ai.evaluateCodingAnswer(problem, code, explanation)`, modelled like
`evaluateAnswerAI`. -/
def evaluateCodingAnswerAI (call : Except Unit String)
    (parse : String → Option CodingEvalObj) : Except Unit CodingEvalObj :=
  match call with
  | .error e => .error e
  | .ok raw =>
    match parse raw with
    | some ev => .ok ev
    | none => .ok defaultCodingEvaluation

/-! ## Concrete oracle outcomes and sessions used by the theorems -/

/-- A next-slot oracle bundle whose calls all succeed with fixed
well-formed payloads. -/
def okNextOracle : NextSlotOracle :=
  { question := .ok "Q"
    mcq := .ok { question := "MCQ?", options := ["A) x", "B) y"],
                 correct := some "A", topic := some "t" }
    coding := .ok { problem := "P", example_input := some "1",
                    example_output := some "2", topic := some "c" } }

/-- A freshly created session. -/
def demoCreated : Session := createSession "sid" "Backend Developer" "Alex" "medium" 0

/-- The created session after a successful `startInterview`. -/
def demoStarted : Session := (startInterview demoCreated (.ok "Q1") 0).2

/-- Iterated `skipQuestion` with the all-ok oracle bundle. -/
def skipTimes (s : Session) : Nat → Session
  | 0 => s
  | n + 1 => skipTimes (skipQuestion s okNextOracle 0).2 n

/-- A session completed by skipping all ten slots. -/
def demoCompleted : Session := skipTimes demoStarted 10

/-- A spoken evaluation of quality 8 in the documented `ai.js` shape. -/
def evalQ8 : Evaluation := { answer_quality := some 8 }

/-- A spoken evaluation of quality 9 in the documented `ai.js` shape. -/
def evalQ9 : Evaluation := { answer_quality := some 9 }

/-- A spoken evaluation of quality 1 in the documented `ai.js` shape. -/
def evalQ1 : Evaluation := { answer_quality := some 1 }

/-- Completed session with one answered spoken slot of quality 8: the
short answer contains the phrase `pass`, so follow-ups are suppressed
and the slot advances; the remaining nine slots are skipped. -/
def demoAnswered : Session :=
  skipTimes (submitAnswer demoStarted "pass" (.ok evalQ8) (.ok "FU") okNextOracle 0).2 9

/-- Session after a substantive main answer of quality 9: a follow-up
is generated. -/
def demoFollowUp : Session :=
  (submitAnswer demoStarted "There are many factors to consider in this design"
    (.ok evalQ9) (.ok "FU1") okNextOracle 0).2

/-- Completed session whose first slot holds main quality 9 and one
follow-up of quality 1 (the quality-1 follow-up answer ends the slot). -/
def demoDepth : Session :=
  skipTimes (submitAnswer demoFollowUp "Maybe because of caching"
    (.ok evalQ1) (.ok "FU2") okNextOracle 0).2 9

/-- Session skipped forward to the first MCQ slot (index 3). -/
def demoAtMCQ : Session := skipTimes demoStarted 3

/-- Completed session with one correctly answered MCQ slot carrying a
stored justification evaluation of quality 9. -/
def demoMCQ : Session :=
  let afterSelect := (submitMCQAnswer demoAtMCQ "A) x" 1500 (.ok "Why that option?") 0).2
  let afterJustify := (submitMCQJustification afterSelect
    "Because it validates the input correctly" (.ok evalQ9) okNextOracle 0).2
  skipTimes afterJustify 6

/-- Session skipped forward to the coding slot (index 8). -/
def demoAtCoding : Session := skipTimes demoStarted 8

/-- A well-formed coding evaluation payload. -/
def codingEvalOk : CodingEvalObj :=
  { logic_understanding := some "high", explanation_alignment := some (9 / 10),
    code_quality := some 9 }

/-- Behaviour data reporting one paste event and benign timings. -/
def pasteBehavior : BehaviorData :=
  { pasteEvents := some 1, timeToFirstKeystroke := some 5000, totalTimeMs := some 45000 }

/-- Completed session whose coding submission reported one paste event. -/
def demoPaste : Session :=
  skipTimes (submitCode demoAtCoding "const x = 1" "It computes x"
    (some pasteBehavior) (.ok codingEvalOk) okNextOracle 0).2 1

/-- Behaviour data whose time to first keystroke is recorded as 0 ms. -/
def ttfk0Behavior : BehaviorData :=
  { pasteEvents := some 0, timeToFirstKeystroke := some 0, totalTimeMs := some 45000 }

/-- Completed session whose coding slot records a time to first
keystroke of 0 ms. -/
def demoInstant0 : Session :=
  skipTimes (submitCode demoAtCoding "const x = 1" "It computes x"
    (some ttfk0Behavior) (.ok codingEvalOk) okNextOracle 0).2 1

/-- Behaviour data with a 500 ms time to first keystroke. -/
def ttfk500Behavior : BehaviorData :=
  { pasteEvents := some 0, timeToFirstKeystroke := some 500, totalTimeMs := some 45000 }

/-- Completed session whose coding slot records a time to first
keystroke of 500 ms. -/
def demoInstant500 : Session :=
  skipTimes (submitCode demoAtCoding "const x = 1" "It computes x"
    (some ttfk500Behavior) (.ok codingEvalOk) okNextOracle 0).2 1

/-- The slot stored at index `i`, with an inert placeholder for an
absent index (used only to state concrete facts about existing slots). -/
def slotAt (s : Session) (i : Nat) : Slot :=
  (s.slots[i]?).getD { index := 0, type := SlotType.spoken }

/-- Whether an engine outcome is a normal return rather than a throw. -/
def isOkResult : Except EngineErr EngineResp → Bool
  | .ok _ => true
  | .error _ => false

/-! ## Behaviour of `advanceToNextSlot` -/

/-- After `advanceToNextSlot` the follow-up depth is 0, whatever the
oracle outcomes. -/
theorem advance_depth (s : Session) (o : NextSlotOracle) (now : Nat) :
    (advanceToNextSlot s o now).2.currentFollowUpDepth = 0 := by
  simp only [advanceToNextSlot]
  split
  · simp [completeInterview]
  · split <;>
      simp only [generateMCQSlot, generateCodingSlot, generateSpokenSlot] <;>
      split <;> (try split) <;> (try split) <;> simp

/-- After `advanceToNextSlot` the cursor has moved exactly one step,
whatever the oracle outcomes. -/
theorem advance_idx (s : Session) (o : NextSlotOracle) (now : Nat) :
    (advanceToNextSlot s o now).2.currentSlotIndex = s.currentSlotIndex + 1 := by
  simp only [advanceToNextSlot]
  split
  · simp [completeInterview]
  · split <;>
      simp only [generateMCQSlot, generateCodingSlot, generateSpokenSlot] <;>
      split <;> (try split) <;> (try split) <;> simp

/-- Appending only: `advanceToNextSlot` never touches the slots already present: a new
slot is only ever appended. -/
theorem advance_slots_untouched (s : Session) (o : NextSlotOracle) (now : Nat) :
    ∀ i, i < s.slots.length → (advanceToNextSlot s o now).2.slots[i]? = s.slots[i]? := by
  intro i hi
  simp only [advanceToNextSlot]
  split
  · simp [completeInterview]
  · split <;>
      simp only [generateMCQSlot, generateCodingSlot, generateSpokenSlot] <;>
      split <;> (try split) <;> (try split) <;>
      simp [List.getElem?_append_left hi]

/-- An answer that normalises exactly to `i dont know` is detected: the
normalised form is 11 characters long and contains itself. -/
theorem detectDontKnow_of_norm (answer : String)
    (h : normalizeAnswer answer = "i dont know") : detectDontKnow answer = true := by
  simp only [detectDontKnow]
  rw [h]
  decide

/-- When the dont-know detector fires, the follow-up decision of
`submitAnswer` is forced to advance, whatever the recorded evaluation
quality. -/
theorem submitAnswerContinue_idk (s : Session) (currentSlot : Slot) (answer : String)
    (fuO : Except Unit String) (o : NextSlotOracle) (now : Nat)
    (hidk : detectDontKnow answer = true) :
    submitAnswerContinue s currentSlot answer fuO o now = advanceToNextSlot s o now := by
  simp only [submitAnswerContinue, hidk]
  simp

/-- Claim C9: a `submitAnswer` call whose answer text normalises
(lowercased, non-letters stripped) to `i dont know` — which is 11
characters, hence under the 30-character bound — never generates a
further follow-up for the current slot, whatever evaluation quality the
oracle returns: the follow-up depth of the resulting session is 0, the
cursor has advanced to the next slot, and the current slot keeps exactly
the follow-ups it already had. -/
theorem c9_dont_know_suppresses_follow_ups
    (s : Session) (answer : String) (ev : Evaluation)
    (fuO : Except Unit String) (o : NextSlotOracle) (now : Nat) (slot : Slot)
    (hnorm : normalizeAnswer answer = "i dont know")
    (hstate : s.state ≠ SState.COMPLETED)
    (hslot : s.slots[s.currentSlotIndex]? = some slot)
    (hready : s.currentFollowUpDepth = 0 ∨
      ∃ fus, slot.followUps = some fus ∧ s.currentFollowUpDepth - 1 < fus.length) :
    (submitAnswer s answer (.ok ev) fuO o now).2.currentFollowUpDepth = 0 ∧
    (submitAnswer s answer (.ok ev) fuO o now).2.currentSlotIndex = s.currentSlotIndex + 1 ∧
    ∀ sl', (submitAnswer s answer (.ok ev) fuO o now).2.slots[s.currentSlotIndex]? = some sl' →
      (sl'.followUps.getD []).length = (slot.followUps.getD []).length := by
  have hidk := detectDontKnow_of_norm answer hnorm
  have hlt : s.currentSlotIndex < s.slots.length := by
    exact (List.getElem?_eq_some.mp hslot).1
  by_cases hd : s.currentFollowUpDepth > 0
  · rcases hready with h0 | ⟨fus, hfus, hlen⟩
    · omega
    have hfu : fus[s.currentFollowUpDepth - 1]? = some (fus[s.currentFollowUpDepth - 1]) :=
      List.getElem?_eq_getElem hlen
    simp only [submitAnswer, if_neg hstate, hslot, hfus, hfu, if_pos hd]
    rw [submitAnswerContinue_idk _ _ _ _ _ _ hidk]
    refine ⟨advance_depth _ _ _, ?_, ?_⟩
    · rw [advance_idx]
    · intro sl' hsl'
      rw [advance_slots_untouched _ _ _ _ (by simpa using hlt)] at hsl'
      rw [List.getElem?_set_self (by simpa using hlt)] at hsl'
      cases hsl'
      simp [hfus]
  · simp only [submitAnswer, if_neg hstate, hslot, if_neg hd]
    have key : ∀ s2 : Session, s2.currentSlotIndex = s.currentSlotIndex →
        s2.slots = (s.slots.set s.currentSlotIndex
          { slot with answer := some answer, answerTimestamp := some now }).set s.currentSlotIndex
          { slot with answer := some answer, answerTimestamp := some now, evaluation := some ev } →
        (submitAnswerContinue s2
            { slot with answer := some answer, answerTimestamp := some now, evaluation := some ev }
            answer fuO o now).2.currentFollowUpDepth = 0 ∧
        (submitAnswerContinue s2
            { slot with answer := some answer, answerTimestamp := some now, evaluation := some ev }
            answer fuO o now).2.currentSlotIndex = s.currentSlotIndex + 1 ∧
        ∀ sl', (submitAnswerContinue s2
            { slot with answer := some answer, answerTimestamp := some now, evaluation := some ev }
            answer fuO o now).2.slots[s.currentSlotIndex]? = some sl' →
          (sl'.followUps.getD []).length = (slot.followUps.getD []).length := by
      intro s2 hidx hslots
      rw [submitAnswerContinue_idk _ _ _ _ _ _ hidk]
      refine ⟨advance_depth _ _ _, ?_, ?_⟩
      · rw [advance_idx, hidx]
      · intro sl' hsl'
        have hlt2 : s.currentSlotIndex < s2.slots.length := by
          rw [hslots]; simpa using hlt
        rw [advance_slots_untouched _ _ _ _ hlt2] at hsl'
        rw [hslots] at hsl'
        rw [List.getElem?_set_self (by simpa using hlt)] at hsl'
        cases hsl'
        rfl
    split
    · rename_i cc hcc
      split
      · exact key _ rfl (by simp)
      · exact key _ rfl (by simp)
    · exact key _ rfl (by simp)

/-- Witness for C9: a concrete dont-know answer against the freshly
started session advances the cursor without creating a follow-up. -/
theorem c9_dont_know_suppresses_follow_ups_witness :
    (submitAnswer demoStarted ("I dont know!") (.ok evalQ9) (.ok "F") okNextOracle 0).2.currentFollowUpDepth = 0 ∧
    (submitAnswer demoStarted ("I dont know!") (.ok evalQ9) (.ok "F") okNextOracle 0).2.currentSlotIndex =
      demoStarted.currentSlotIndex + 1 ∧
    ∀ sl', (submitAnswer demoStarted ("I dont know!") (.ok evalQ9) (.ok "F") okNextOracle
        0).2.slots[demoStarted.currentSlotIndex]? = some sl' →
      (sl'.followUps.getD []).length = ((slotAt demoStarted 0).followUps.getD []).length :=
  c9_dont_know_suppresses_follow_ups demoStarted ("I dont know!") evalQ9 (.ok "F") okNextOracle 0
    (slotAt demoStarted 0) (by decide) (by decide) (by decide) (Or.inl (by decide))

/-- Claim C10: dont-know classification is substring containment under a
30-character bound on the normalised answer: `detectDontKnow` returns
true exactly when the normalisation is shorter than 30 characters and
contains one of the listed phrases anywhere inside it; a short
substantive answer containing `pass` is classified dont-know (and
suppresses the follow-up: the started session advances with no follow-up
recorded), while a 32-character answer containing `pass` is not. -/
theorem c10_dont_know_uses_substring_containment :
    (∀ answer : String,
      detectDontKnow answer =
        (decide ((normalizeAnswer answer).length < 30) &&
         idkPhrases.any fun phrase => containsSub phrase.data (normalizeAnswer answer).data)) ∧
    detectDontKnow ("We pass it by value") = true ∧
    detectDontKnow ("We pass values by reference here") = false ∧
    (submitAnswer demoStarted ("We pass it by value") (.ok evalQ9) (.ok "F")
        okNextOracle 0).2.currentSlotIndex = 1 ∧
    ((submitAnswer demoStarted ("We pass it by value") (.ok evalQ9) (.ok "F")
        okNextOracle 0).2.slots[0]?.bind Slot.followUps) = some [] := by
  refine ⟨?_, by decide, by decide, by decide, by decide⟩
  intro answer
  simp only [detectDontKnow]
  by_cases h : (normalizeAnswer answer).length < 30
  · simp [h]
  · simp [h]

/-- Claim C2 (amended): against a `COMPLETED` session the three
operations that carry an entry state guard — `submitAnswer`,
`submitMCQAnswer` and `submitMCQJustification` — fail with their
invalid-state-transition errors and leave the stored session unchanged;
the remaining mutating operations carry no such guard. -/
theorem c2_completed_guarded_ops_fail_unchanged (s : Session)
    (h : s.state = SState.COMPLETED) :
    (∀ answer evalO fuO o now, submitAnswer s answer evalO fuO o now =
      (.error (.invalidState "Interview already completed"), s)) ∧
    (∀ sel t fuO now, submitMCQAnswer s sel t fuO now =
      (.error (.invalidState "Not in MCQ state"), s)) ∧
    (∀ j evalO o now, submitMCQJustification s j evalO o now =
      (.error (.invalidState "Not in MCQ justify state"), s)) := by
  refine ⟨?_, ?_, ?_⟩
  · intro answer evalO fuO o now
    simp [submitAnswer, h]
  · intro sel t fuO now
    simp [submitMCQAnswer, h]
  · intro j evalO o now
    simp [submitMCQJustification, h]

/-- Witness for C2 (amended) at the concrete completed session. -/
theorem c2_completed_guarded_ops_fail_unchanged_witness :
    demoCompleted.state = SState.COMPLETED ∧
    submitAnswer demoCompleted "hello" (.ok evalQ8) (.ok "F") okNextOracle 0 =
      (.error (.invalidState "Interview already completed"), demoCompleted) ∧
    submitMCQAnswer demoCompleted "A" 10 (.ok "F") 0 =
      (.error (.invalidState "Not in MCQ state"), demoCompleted) ∧
    submitMCQJustification demoCompleted "j" (.ok evalQ8) okNextOracle 0 =
      (.error (.invalidState "Not in MCQ justify state"), demoCompleted) :=
  ⟨by decide,
   (c2_completed_guarded_ops_fail_unchanged demoCompleted (by decide)).1 "hello" _ _ _ _,
   (c2_completed_guarded_ops_fail_unchanged demoCompleted (by decide)).2.1 "A" 10 _ _,
   (c2_completed_guarded_ops_fail_unchanged demoCompleted (by decide)).2.2 "j" _ _ _⟩

/-- Counterexample for C2 as stated: `skipQuestion` against the
completed session does not fail — it returns normally and mutates the
stored session, pushing the cursor from 10 to 11. -/
theorem c2_skip_on_completed_succeeds_and_mutates :
    demoCompleted.state = SState.COMPLETED ∧
    isOkResult (skipQuestion demoCompleted okNextOracle 0).1 = true ∧
    demoCompleted.currentSlotIndex = 10 ∧
    (skipQuestion demoCompleted okNextOracle 0).2.currentSlotIndex = 11 ∧
    (skipQuestion demoCompleted okNextOracle 0).2 ≠ demoCompleted := by decide

/-- Claim C1 (code bug): the completed session `demoAnswered` holds
exactly one non-skipped spoken slot, whose evaluation was recorded by
`submitAnswer` with `answer_quality` 8, so the claimed dimension value
is `8 × 10 = 80`; but `computeAnswerQuality` reads the never-written
`quality` property, and the reported answer-quality dimension is 0. -/
theorem c1_answer_quality_reads_wrong_field :
    demoAnswered.state = SState.COMPLETED ∧
    (demoAnswered.slots.filter isActiveSpoken).length = 1 ∧
    ((demoAnswered.slots.filter isActiveSpoken).head?.bind fun sl =>
        sl.evaluation.bind Evaluation.answer_quality) = some 8 ∧
    (computeScore demoAnswered).breakdown.answerQuality = 0 ∧
    (computeScore demoAnswered).breakdown.answerQuality ≠ 80 := by decide

/-- Claim C6 (code bug): in the completed session `demoDepth` the first
slot was recorded by `submitAnswer` with main quality 9 and a single
follow-up of quality 1, so the claimed depth-stability contribution is
10; but `computeDepthStability` reads the never-written `quality`
property, finds no usable pair, and reports the neutral 60. -/
theorem c6_depth_stability_reads_wrong_field :
    demoDepth.state = SState.COMPLETED ∧
    ((demoDepth.slots[0]?).map Slot.skipped) = some false ∧
    ((demoDepth.slots[0]?).bind fun sl =>
        sl.evaluation.bind Evaluation.answer_quality) = some 9 ∧
    ((demoDepth.slots[0]?).map fun sl => (sl.followUps.getD []).length) = some 1 ∧
    ((demoDepth.slots[0]?).bind fun sl => (sl.followUps.getD []).head?.bind fun fu =>
        fu.evaluation.bind Evaluation.answer_quality) = some 1 ∧
    (computeScore demoDepth).breakdown.depthStability = 60 ∧
    (computeScore demoDepth).breakdown.depthStability ≠ 10 := by decide

/-- Claim C3 (code bug): in the completed session `demoMCQ` the only
non-skipped MCQ slot was answered correctly (`submitMCQAnswer` reported
`isCorrect`) and carries a stored justification evaluation of quality 9,
so the claimed dimension value is `50 + 9 × 5 = 95`; but
`computeMCQAccuracy` reads the never-written `isCorrect` and
`justificationEval` properties and reports 0. -/
theorem c3_mcq_accuracy_reads_wrong_fields :
    demoMCQ.state = SState.COMPLETED ∧
    (demoMCQ.slots.filter isActiveMcq).length = 1 ∧
    ((demoMCQ.slots[3]?).map Slot.skipped) = some false ∧
    ((demoMCQ.slots[3]?).bind Slot.correct) = some "A" ∧
    (submitMCQAnswer demoAtMCQ "A) x" 1500 (.ok "Why that option?") 0).1 =
      .ok (.mcqJustifyPrompt "Why that option?" "A) x" true) ∧
    ((demoMCQ.slots[3]?).bind fun sl =>
        sl.mcqJustificationEval.bind Evaluation.answer_quality) = some 9 ∧
    (computeScore demoMCQ).breakdown.mcqAccuracy = 0 ∧
    (computeScore demoMCQ).breakdown.mcqAccuracy ≠ 95 := by decide

/-- Claim C5 (code bug): in the completed session `demoPaste` the coding
submission recorded one paste event in its behaviour data, so the claim
demands a 15-point trust deduction and a `paste_detected` flag; but the
paste branch of `computeBehavioralTrust` and `detectRiskFlags` reads
`session.behaviorSignals`, which no code path ever writes: the trust
dimension stays 100 and no paste flag is raised. -/
theorem c5_paste_signals_never_reach_scoring :
    demoPaste.state = SState.COMPLETED ∧
    ((demoPaste.slots[8]?).map Slot.type) = some SlotType.coding ∧
    ((demoPaste.slots[8]?).map Slot.skipped) = some false ∧
    ((demoPaste.slots[8]?).bind fun sl =>
        sl.behaviorData.bind BehaviorData.pasteEvents) = some 1 ∧
    demoPaste.behaviorSignals = none ∧
    (computeScore demoPaste).breakdown.behavioralTrust = 100 ∧
    ((computeScore demoPaste).riskFlags.filter fun f => f.type = "paste_detected") = [] := by
  decide

/-- Counterexample for C4 as stated: when the underlying `chatCompletion`
call fails, `ai.evaluateAnswer` does not substitute the neutral default —
the exception propagates, and the enclosing `submitAnswer` operation
fails instead of succeeding. -/
theorem c4_api_failure_propagates :
    evaluateAnswerAI (.error ()) (fun _ => none) = .error () ∧
    (submitAnswer demoStarted "A substantive answer" (.error ()) (.ok "F")
        okNextOracle 0).1 = .error .oracleFailure := by
  exact ⟨rfl, by decide⟩

/-- Claim C4 (amended): when the oracle call returns but its payload is
malformed (no parseable JSON object), the core substitutes the
documented neutral default — quality 5, confidence 0.5, clarity
`medium` (and the analogous coding default) — and the enclosing
operation still succeeds. -/
theorem c4_malformed_payload_neutral_default
    (raw : String) (parse : String → Option Evaluation) (hparse : parse raw = none)
    (rawC : String) (parseC : String → Option CodingEvalObj) (hparseC : parseC rawC = none) :
    evaluateAnswerAI (.ok raw) parse = .ok defaultEvaluation ∧
    defaultEvaluation.answer_quality = some 5 ∧
    defaultEvaluation.confidence = some (1 / 2) ∧
    defaultEvaluation.clarity = some "medium" ∧
    evaluateCodingAnswerAI (.ok rawC) parseC = .ok defaultCodingEvaluation ∧
    isOkResult (submitAnswer demoStarted "pass"
      (evaluateAnswerAI (.ok raw) parse) (.ok "F") okNextOracle 0).1 = true := by
  have h : evaluateAnswerAI (.ok raw) parse = .ok defaultEvaluation := by
    simp [evaluateAnswerAI, hparse]
  refine ⟨h, by decide, by decide, by decide, ?_, ?_⟩
  · simp [evaluateCodingAnswerAI, hparseC]
  · rw [h]
    decide

/-- Witness for C4 (amended) at a concrete unparseable payload. -/
theorem c4_malformed_payload_neutral_default_witness :
    evaluateAnswerAI (.ok "no json here") (fun _ => none) = .ok defaultEvaluation ∧
    defaultEvaluation.answer_quality = some 5 ∧
    defaultEvaluation.confidence = some (1 / 2) ∧
    defaultEvaluation.clarity = some "medium" ∧
    evaluateCodingAnswerAI (.ok "still no json") (fun _ => none) = .ok defaultCodingEvaluation ∧
    isOkResult (submitAnswer demoStarted "pass"
      (evaluateAnswerAI (.ok "no json here") (fun _ => none)) (.ok "F") okNextOracle 0).1 = true :=
  c4_malformed_payload_neutral_default "no json here" (fun _ => none) rfl
    "still no json" (fun _ => none) rfl

/-! ## Decomposition of the behavioural-trust computation -/

/-- The paste deduction applied by `computeBehavioralTrust` before the
per-slot loop. -/
def pasteDeduction (session : Session) : ℚ :=
  let signals := session.behaviorSignals.getD []
  let pasteCount := (signals.filter fun s => s.type = "paste").length
  if pasteCount > 0 then min 30 ((pasteCount : ℚ) * 15) else 0

/-- The flat fast-spoken-answers deduction applied by
`computeBehavioralTrust` after the per-slot loop. -/
def fastSpokenPenalty (session : Session) : ℚ :=
  let spokenSlots := session.slots.filter isActiveSpoken
  let fastAnswers := (spokenSlots.filter fun s =>
    truthyQ s.responseTimeMs && decide (s.responseTimeMs.getD 0 < 5000)).length
  if fastAnswers > 3 then 15 else 0

/-- The sequential per-slot deductions amount to subtracting the sum of
the per-slot deduction terms. -/
theorem trust_foldl_sum (l : List Slot) (a : ℚ) :
    l.foldl (fun t slot => t - instantCodingDeduction slot - fastTotalDeduction slot) a =
      a - (l.map fun sl => instantCodingDeduction sl + fastTotalDeduction sl).sum := by
  induction l generalizing a with
  | nil => simp
  | cons x xs ih =>
    rw [List.foldl_cons, ih]
    simp only [List.map_cons, List.sum_cons]
    ring

/-- Decomposition: `computeBehavioralTrust` equals 100 minus the paste deduction, the
per-coding-slot deductions and the fast-answer penalty, floored at 0. -/
theorem computeBehavioralTrust_decomposed (session : Session) :
    computeBehavioralTrust session =
      max 0 (100 - pasteDeduction session -
        ((session.slots.filter isActiveCoding).map fun sl =>
          instantCodingDeduction sl + fastTotalDeduction sl).sum -
        fastSpokenPenalty session) := by
  simp only [computeBehavioralTrust, pasteDeduction, fastSpokenPenalty, trust_foldl_sum]
  split <;> split <;> congr 1 <;> ring

/-- Claim C8 (amended): a non-skipped coding slot whose recorded
`timeToFirstKeystroke` is nonzero and below 3000 ms contributes an
instant-coding deduction of exactly 20 to the behavioural-trust
computation (which subtracts the per-slot deduction terms from 100,
flooring at 0), and the score report carries an `instant_coding` risk
flag of severity `danger`. -/
theorem c8_instant_coding_deduction_and_flag (session : Session) (slot : Slot) (v : ℚ)
    (hmem : slot ∈ session.slots) (htype : slot.type = SlotType.coding)
    (hskip : slot.skipped = false)
    (hv : (slotBehavior slot).timeToFirstKeystroke = some v)
    (hv0 : v ≠ 0) (hv3 : v < 3000) :
    instantCodingDeduction slot = 20 ∧
    computeBehavioralTrust session =
      max 0 (100 - pasteDeduction session -
        ((session.slots.filter isActiveCoding).map fun sl =>
          instantCodingDeduction sl + fastTotalDeduction sl).sum -
        fastSpokenPenalty session) ∧
    ({ type := "instant_coding", severity := "danger",
        label := "Suspiciously Fast Coding" } : RiskFlag) ∈ (computeScore session).riskFlags := by
  have hguard : (truthyQ (slotBehavior slot).timeToFirstKeystroke &&
      decide ((slotBehavior slot).timeToFirstKeystroke.getD 0 < 3000)) = true := by
    rw [hv]
    simp only [truthyQ, Option.getD_some, Bool.and_eq_true, bne_iff_ne, ne_eq,
      decide_eq_true_eq]
    exact ⟨hv0, hv3⟩
  have hded : instantCodingDeduction slot = 20 := by
    simp only [instantCodingDeduction]
    rw [if_pos hguard]
  refine ⟨hded, computeBehavioralTrust_decomposed session, ?_⟩
  have hfilter : slot ∈ session.slots.filter isActiveCoding := by
    rw [List.mem_filter]
    exact ⟨hmem, by simp [isActiveCoding, htype, hskip]⟩
  have hflag : ({ type := "instant_coding", severity := "danger",
                  label := "Suspiciously Fast Coding" } : RiskFlag) ∈ instantCodingFlags slot := by
    simp only [instantCodingFlags]
    rw [if_pos hguard]
    simp
  simp only [computeScore, detectRiskFlags, List.mem_append]
  refine Or.inl (Or.inl (Or.inr ?_))
  exact List.mem_flatMap.mpr ⟨slot, hfilter, hflag⟩

/-- Witness for C8 (amended) at the concrete session whose coding slot
records a 500 ms time to first keystroke. -/
theorem c8_instant_coding_deduction_and_flag_witness :
    instantCodingDeduction (slotAt demoInstant500 8) = 20 ∧
    computeBehavioralTrust demoInstant500 =
      max 0 (100 - pasteDeduction demoInstant500 -
        ((demoInstant500.slots.filter isActiveCoding).map fun sl =>
          instantCodingDeduction sl + fastTotalDeduction sl).sum -
        fastSpokenPenalty demoInstant500) ∧
    ({ type := "instant_coding", severity := "danger",
        label := "Suspiciously Fast Coding" } : RiskFlag) ∈ (computeScore demoInstant500).riskFlags :=
  c8_instant_coding_deduction_and_flag demoInstant500 (slotAt demoInstant500 8) 500
    (by decide) (by decide) (by decide) (by decide) (by decide) (by decide)

/-- Counterexample for C8 as stated: a coding slot whose recorded time
to first keystroke is 0 ms — below 3000 ms — produces neither the
20-point deduction (trust stays 100) nor an `instant_coding` flag,
because 0 fails the JavaScript truthiness guard. -/
theorem c8_ttfk_zero_counterexample :
    demoInstant0.state = SState.COMPLETED ∧
    ((demoInstant0.slots[8]?).map Slot.type) = some SlotType.coding ∧
    ((demoInstant0.slots[8]?).map Slot.skipped) = some false ∧
    ((demoInstant0.slots[8]?).bind fun sl =>
        sl.behaviorData.bind BehaviorData.timeToFirstKeystroke) = some 0 ∧
    ((0 : ℚ) < 3000) = True ∧
    (computeScore demoInstant0).breakdown.behavioralTrust = 100 ∧
    ((computeScore demoInstant0).riskFlags.filter fun f => f.type = "instant_coding") = [] := by
  refine ⟨by decide, by decide, by decide, by decide, by simp, by decide, by decide⟩

/-! ## Reachability and the cursor/length invariants (claim C7) -/

/-- One engine operation applied with arbitrary arguments and arbitrary
oracle outcomes, whether it returns or throws (the stored session is the
second component either way). -/
inductive EngineStep : Session → Session → Prop where
  | start (s : Session) (oq : Except Unit String) (now : Nat) :
      EngineStep s (startInterview s oq now).2
  | answer (s : Session) (a : String) (eo : Except Unit Evaluation)
      (fo : Except Unit String) (o : NextSlotOracle) (now : Nat) :
      EngineStep s (submitAnswer s a eo fo o now).2
  | mcqAnswer (s : Session) (sel : String) (t : ℚ) (fo : Except Unit String) (now : Nat) :
      EngineStep s (submitMCQAnswer s sel t fo now).2
  | mcqJustify (s : Session) (j : String) (eo : Except Unit Evaluation)
      (o : NextSlotOracle) (now : Nat) :
      EngineStep s (submitMCQJustification s j eo o now).2
  | code (s : Session) (c e : String) (b : Option BehaviorData)
      (eo : Except Unit CodingEvalObj) (o : NextSlotOracle) (now : Nat) :
      EngineStep s (submitCode s c e b eo o now).2
  | interrupt (s : Session) (cc : String) (oq : Except Unit String) (now : Nat) :
      EngineStep s (triggerCodingInterruption s cc oq now).2
  | interruptResp (s : Session) (r : String) (now : Nat) :
      EngineStep s (submitInterruptionResponse s r now).2
  | skip (s : Session) (o : NextSlotOracle) (now : Nat) :
      EngineStep s (skipQuestion s o now).2

/-- Sessions reachable from `createSession` through arbitrary operations
with arbitrary outcomes. -/
inductive ReachableS : Session → Prop where
  | create (id role nm diff : String) (now : Nat) :
      ReachableS (createSession id role nm diff now)
  | step (s s' : Session) : ReachableS s → EngineStep s s' → ReachableS s'

/-- Invariant step: `advanceToNextSlot` always leaves a non-`CREATED` state (completion
or a generator state), whatever the oracle outcomes. -/
theorem advance_state_ne_created (s : Session) (o : NextSlotOracle) (now : Nat) :
    (advanceToNextSlot s o now).2.state ≠ SState.CREATED := by
  simp only [advanceToNextSlot]
  split
  · simp [completeInterview]
  · split <;>
      simp only [generateMCQSlot, generateCodingSlot, generateSpokenSlot] <;>
      split <;> (try split) <;> (try split) <;> simp

/-- Monotonicity: `submitAnswerContinue` never moves the cursor backwards. -/
theorem submitAnswerContinue_idx_ge (s : Session) (cs : Slot) (a : String)
    (fo : Except Unit String) (o : NextSlotOracle) (now : Nat) :
    s.currentSlotIndex ≤ (submitAnswerContinue s cs a fo o now).2.currentSlotIndex := by
  simp only [submitAnswerContinue]
  split
  · split
    · simp
    · split <;> simp
  · rw [advance_idx]
    omega

/-- Monotonicity: `submitAnswer` never moves the cursor backwards. -/
theorem submitAnswer_idx_ge (s : Session) (a : String) (eo : Except Unit Evaluation)
    (fo : Except Unit String) (o : NextSlotOracle) (now : Nat) :
    s.currentSlotIndex ≤ (submitAnswer s a eo fo o now).2.currentSlotIndex := by
  have H : ∀ (s2 : Session) (cs : Slot), s2.currentSlotIndex = s.currentSlotIndex →
      s.currentSlotIndex ≤ (submitAnswerContinue s2 cs a fo o now).2.currentSlotIndex :=
    fun s2 cs h => le_trans (le_of_eq h.symm) (submitAnswerContinue_idx_ge s2 cs a fo o now)
  simp only [submitAnswer]
  split
  · simp
  · split
    · simp
    · split
      · split
        · simp
        · split
          · simp
          · split
            · simp
            · exact H _ _ (by simp)
      · split
        · simp
        · split <;> (try split) <;> exact H _ _ (by simp)

/-- Monotonicity: `startInterview` never moves the cursor backwards on a session whose
`CREATED` state implies cursor 0 (true of every reachable session). -/
theorem startInterview_idx_ge (s : Session) (oq : Except Unit String) (now : Nat)
    (h0 : s.state = SState.CREATED → s.currentSlotIndex = 0) :
    s.currentSlotIndex ≤ (startInterview s oq now).2.currentSlotIndex := by
  simp only [startInterview]
  split
  · simp
  · rename_i hs
    have := h0 (by simpa using hs)
    split <;> simp [this]

/-- Monotonicity: `submitMCQAnswer` never moves the cursor backwards. -/
theorem submitMCQAnswer_idx_ge (s : Session) (sel : String) (t : ℚ)
    (fo : Except Unit String) (now : Nat) :
    s.currentSlotIndex ≤ (submitMCQAnswer s sel t fo now).2.currentSlotIndex := by
  simp only [submitMCQAnswer]
  split
  · simp
  · split
    · simp
    · split <;> simp

/-- Monotonicity: `submitMCQJustification` never moves the cursor backwards. -/
theorem submitMCQJustification_idx_ge (s : Session) (j : String)
    (eo : Except Unit Evaluation) (o : NextSlotOracle) (now : Nat) :
    s.currentSlotIndex ≤ (submitMCQJustification s j eo o now).2.currentSlotIndex := by
  simp only [submitMCQJustification]
  split
  · simp
  · split
    · simp
    · split
      · simp
      · split
        · simp
        · rw [advance_idx]
          simp

/-- Monotonicity: `submitCode` never moves the cursor backwards. -/
theorem submitCode_idx_ge (s : Session) (c e : String) (b : Option BehaviorData)
    (eo : Except Unit CodingEvalObj) (o : NextSlotOracle) (now : Nat) :
    s.currentSlotIndex ≤ (submitCode s c e b eo o now).2.currentSlotIndex := by
  simp only [submitCode]
  split
  · simp
  · split
    · simp
    · split
      · simp
      · rw [advance_idx]
        simp

/-- Monotonicity: `triggerCodingInterruption` never moves the cursor backwards. -/
theorem triggerCodingInterruption_idx_ge (s : Session) (cc : String)
    (oq : Except Unit String) (now : Nat) :
    s.currentSlotIndex ≤ (triggerCodingInterruption s cc oq now).2.currentSlotIndex := by
  simp only [triggerCodingInterruption]
  split
  · simp
  · split
    · simp
    · split
      · simp
      · split <;> simp

/-- Monotonicity: `submitInterruptionResponse` never moves the cursor backwards. -/
theorem submitInterruptionResponse_idx_ge (s : Session) (r : String) (now : Nat) :
    s.currentSlotIndex ≤ (submitInterruptionResponse s r now).2.currentSlotIndex := by
  simp only [submitInterruptionResponse]
  split <;> simp

/-- Monotonicity: `skipQuestion` never moves the cursor backwards. -/
theorem skipQuestion_idx_ge (s : Session) (o : NextSlotOracle) (now : Nat) :
    s.currentSlotIndex ≤ (skipQuestion s o now).2.currentSlotIndex := by
  simp only [skipQuestion]
  split <;> rw [advance_idx] <;> simp

/-- The follow-up decision never leaves the session in `CREATED`. -/
theorem submitAnswerContinue_state_ne_created (s : Session) (cs : Slot) (a : String)
    (fo : Except Unit String) (o : NextSlotOracle) (now : Nat) :
    (submitAnswerContinue s cs a fo o now).2.state ≠ SState.CREATED := by
  simp only [submitAnswerContinue]
  split
  · split
    · simp
    · split <;> simp
  · exact advance_state_ne_created _ _ _

/-- If `submitAnswer` leaves the session in `CREATED`, the cursor is
untouched and the session already was in `CREATED`. -/
theorem submitAnswer_created (s : Session) (a : String) (eo : Except Unit Evaluation)
    (fo : Except Unit String) (o : NextSlotOracle) (now : Nat) :
    (submitAnswer s a eo fo o now).2.state = SState.CREATED →
    (submitAnswer s a eo fo o now).2.currentSlotIndex = s.currentSlotIndex ∧
      s.state = SState.CREATED := by
  have H := fun s2 cs => submitAnswerContinue_state_ne_created s2 cs a fo o now
  simp only [submitAnswer]
  split
  · exact fun h => ⟨rfl, by simpa using h⟩
  · split
    · exact fun h => ⟨rfl, by simpa using h⟩
    · split
      · split
        · exact fun h => ⟨rfl, by simpa using h⟩
        · split
          · exact fun h => ⟨rfl, by simpa using h⟩
          · split
            · exact fun h => ⟨by simp, by simpa using h⟩
            · exact fun h => absurd h (H _ _)
      · split
        · exact fun h => ⟨by simp, by simpa using h⟩
        · split <;> (try split) <;> exact fun h => absurd h (H _ _)

/-- If `startInterview` leaves the session in `CREATED`, nothing changed
and the session already was in `CREATED`. -/
theorem startInterview_created (s : Session) (oq : Except Unit String) (now : Nat) :
    (startInterview s oq now).2.state = SState.CREATED →
    (startInterview s oq now).2.currentSlotIndex = s.currentSlotIndex ∧
      s.state = SState.CREATED := by
  simp only [startInterview]
  split
  · exact fun h => ⟨rfl, by simpa using h⟩
  · split <;> simp

/-- If `submitMCQAnswer` leaves the session in `CREATED`, nothing
changed and the session already was in `CREATED`. -/
theorem submitMCQAnswer_created (s : Session) (sel : String) (t : ℚ)
    (fo : Except Unit String) (now : Nat) :
    (submitMCQAnswer s sel t fo now).2.state = SState.CREATED →
    (submitMCQAnswer s sel t fo now).2.currentSlotIndex = s.currentSlotIndex ∧
      s.state = SState.CREATED := by
  simp only [submitMCQAnswer]
  split
  · exact fun h => ⟨rfl, by simpa using h⟩
  · split
    · exact fun h => ⟨rfl, by simpa using h⟩
    · split <;> simp

/-- If `submitMCQJustification` leaves the session in `CREATED`, nothing
changed and the session already was in `CREATED`. -/
theorem submitMCQJustification_created (s : Session) (j : String)
    (eo : Except Unit Evaluation) (o : NextSlotOracle) (now : Nat) :
    (submitMCQJustification s j eo o now).2.state = SState.CREATED →
    (submitMCQJustification s j eo o now).2.currentSlotIndex = s.currentSlotIndex ∧
      s.state = SState.CREATED := by
  simp only [submitMCQJustification]
  split
  · exact fun h => ⟨rfl, by simpa using h⟩
  · split
    · exact fun h => ⟨rfl, by simpa using h⟩
    · split
      · exact fun h => ⟨rfl, by simpa using h⟩
      · split
        · exact fun h => ⟨rfl, by simpa using h⟩
        · exact fun h => absurd h (advance_state_ne_created _ _ _)

/-- If `submitCode` leaves the session in `CREATED`, nothing changed and
the session already was in `CREATED`. -/
theorem submitCode_created (s : Session) (c e : String) (b : Option BehaviorData)
    (eo : Except Unit CodingEvalObj) (o : NextSlotOracle) (now : Nat) :
    (submitCode s c e b eo o now).2.state = SState.CREATED →
    (submitCode s c e b eo o now).2.currentSlotIndex = s.currentSlotIndex ∧
      s.state = SState.CREATED := by
  simp only [submitCode]
  split
  · exact fun h => ⟨rfl, by simpa using h⟩
  · split
    · exact fun h => ⟨rfl, by simpa using h⟩
    · split
      · exact fun h => ⟨rfl, by simpa using h⟩
      · exact fun h => absurd h (advance_state_ne_created _ _ _)

/-- If `triggerCodingInterruption` leaves the session in `CREATED`,
nothing changed and the session already was in `CREATED`. -/
theorem triggerCodingInterruption_created (s : Session) (cc : String)
    (oq : Except Unit String) (now : Nat) :
    (triggerCodingInterruption s cc oq now).2.state = SState.CREATED →
    (triggerCodingInterruption s cc oq now).2.currentSlotIndex = s.currentSlotIndex ∧
      s.state = SState.CREATED := by
  simp only [triggerCodingInterruption]
  split
  · exact fun h => ⟨rfl, by simpa using h⟩
  · split
    · exact fun h => ⟨rfl, by simpa using h⟩
    · split
      · exact fun h => ⟨rfl, by simpa using h⟩
      · split
        · exact fun h => ⟨rfl, by simpa using h⟩
        · simp

/-- If `submitInterruptionResponse` leaves the session in `CREATED`,
nothing changed and the session already was in `CREATED`. -/
theorem submitInterruptionResponse_created (s : Session) (r : String) (now : Nat) :
    (submitInterruptionResponse s r now).2.state = SState.CREATED →
    (submitInterruptionResponse s r now).2.currentSlotIndex = s.currentSlotIndex ∧
      s.state = SState.CREATED := by
  simp only [submitInterruptionResponse]
  split
  · exact fun h => ⟨rfl, by simpa using h⟩
  · simp

/-- Invariant step: `skipQuestion` never leaves the session in `CREATED`. -/
theorem skipQuestion_state_ne_created (s : Session) (o : NextSlotOracle) (now : Nat) :
    (skipQuestion s o now).2.state ≠ SState.CREATED := by
  simp only [skipQuestion]
  split <;> exact advance_state_ne_created _ _ _

/-- Every reachable session in `CREATED` still has cursor 0. -/
theorem reachable_created_idx (s : Session) (h : ReachableS s) :
    s.state = SState.CREATED → s.currentSlotIndex = 0 := by
  induction h with
  | create id role nm diff now => exact fun _ => rfl
  | step s s' hr hstep ih =>
    intro h'
    cases hstep with
    | start oq now =>
      obtain ⟨hidx, hcs⟩ := startInterview_created _ oq now h'
      rw [hidx]; exact ih hcs
    | answer a eo fo o now =>
      obtain ⟨hidx, hcs⟩ := submitAnswer_created _ a eo fo o now h'
      rw [hidx]; exact ih hcs
    | mcqAnswer sel t fo now =>
      obtain ⟨hidx, hcs⟩ := submitMCQAnswer_created _ sel t fo now h'
      rw [hidx]; exact ih hcs
    | mcqJustify j eo o now =>
      obtain ⟨hidx, hcs⟩ := submitMCQJustification_created _ j eo o now h'
      rw [hidx]; exact ih hcs
    | code c e b eo o now =>
      obtain ⟨hidx, hcs⟩ := submitCode_created _ c e b eo o now h'
      rw [hidx]; exact ih hcs
    | interrupt cc oq now =>
      obtain ⟨hidx, hcs⟩ := triggerCodingInterruption_created _ cc oq now h'
      rw [hidx]; exact ih hcs
    | interruptResp r now =>
      obtain ⟨hidx, hcs⟩ := submitInterruptionResponse_created _ r now h'
      rw [hidx]; exact ih hcs
    | skip o now => exact absurd h' (skipQuestion_state_ne_created _ o now)

/-- The started-session invariant: the session has left `CREATED`, and
either it is `COMPLETED` with the cursor at or beyond both the
configured slot count and the number of stored slots, or it is live with
exactly `currentSlotIndex + 1` stored slots. -/
def StartedInv (s : Session) : Prop :=
  s.state ≠ SState.CREATED ∧
  ((s.state = SState.COMPLETED ∧ totalSlots ≤ s.currentSlotIndex ∧
      s.slots.length ≤ s.currentSlotIndex) ∨
   (s.state ≠ SState.COMPLETED ∧ s.slots.length = s.currentSlotIndex + 1))

/-- A successful `advanceToNextSlot` re-establishes the invariant, both
from a live session (`slots.length = currentSlotIndex + 1`) and from a
completed one being advanced again by the guard-free `skipQuestion`. -/
theorem advance_ok_inv (s : Session) (o : NextSlotOracle) (now : Nat)
    (r : EngineResp) (s' : Session)
    (hpre : s.slots.length = s.currentSlotIndex + 1 ∨
      (totalSlots ≤ s.currentSlotIndex ∧ s.slots.length ≤ s.currentSlotIndex))
    (h : advanceToNextSlot s o now = (.ok r, s')) : StartedInv s' := by
  simp only [advanceToNextSlot, completeInterview, generateMCQSlot, generateCodingSlot,
    generateSpokenSlot] at h
  split at h
  · rename_i hge
    simp only [Prod.mk.injEq] at h
    obtain ⟨-, hs'⟩ := h
    subst hs'
    refine ⟨by simp, Or.inl ⟨rfl, by simpa using hge, ?_⟩⟩
    rcases hpre with h1 | ⟨h1, h2⟩ <;> simp <;> omega
  · rename_i hlt
    have hlen : s.slots.length = s.currentSlotIndex + 1 := by
      rcases hpre with h1 | ⟨h1, h2⟩
      · exact h1
      · exfalso
        simp only [ge_iff_le, not_le] at hlt
        simp only [totalSlots] at *
        omega
    split at h
    · split at h
      · simp at h
      · split at h <;>
        · simp only [Prod.mk.injEq] at h
          obtain ⟨-, hs'⟩ := h
          subst hs'
          refine ⟨?_, Or.inr ⟨?_, ?_⟩⟩ <;> (try split) <;> simp [hlen]
    · split at h
      · simp at h
      · split at h <;>
        · simp only [Prod.mk.injEq] at h
          obtain ⟨-, hs'⟩ := h
          subst hs'
          refine ⟨?_, Or.inr ⟨?_, ?_⟩⟩ <;> (try split) <;> simp [hlen]
    · split at h
      · simp at h
      · simp only [Prod.mk.injEq] at h
        obtain ⟨-, hs'⟩ := h
        subst hs'
        refine ⟨by split <;> simp, Or.inr ⟨by split <;> simp, by simp [hlen]⟩⟩

/-- A completed session under the invariant stores no slot at the
cursor, so an operation that dereferences the current slot cannot have
succeeded; a live one stores exactly `currentSlotIndex + 1` slots. -/
theorem startedInv_slot_some (s : Session) (sl : Slot) (hInv : StartedInv s)
    (h : s.slots[s.currentSlotIndex]? = some sl) :
    s.state ≠ SState.COMPLETED ∧ s.slots.length = s.currentSlotIndex + 1 := by
  rcases hInv with ⟨-, ⟨hc, hge, hlen⟩ | ⟨hc, hlen⟩⟩
  · rw [List.getElem?_eq_none (by omega)] at h
    cases h
  · exact ⟨hc, hlen⟩

/-- A successful follow-up decision preserves the invariant. -/
theorem submitAnswerContinue_ok_inv (s : Session) (cs : Slot) (a : String)
    (fo : Except Unit String) (o : NextSlotOracle) (now : Nat) (r : EngineResp) (s' : Session)
    (hlen : s.slots.length = s.currentSlotIndex + 1)
    (h : submitAnswerContinue s cs a fo o now = (.ok r, s')) : StartedInv s' := by
  simp only [submitAnswerContinue] at h
  split at h
  · split at h
    · simp at h
    · split at h
      · simp at h
      · simp only [Prod.mk.injEq] at h
        obtain ⟨-, hs'⟩ := h
        subst hs'
        exact ⟨by simp, Or.inr ⟨by simp, by simp [hlen]⟩⟩
  · exact advance_ok_inv _ _ _ _ _ (Or.inl hlen) h

/-- A successful `submitAnswer` preserves the invariant. -/
theorem submitAnswer_ok_inv (s : Session) (a : String) (eo : Except Unit Evaluation)
    (fo : Except Unit String) (o : NextSlotOracle) (now : Nat) (r : EngineResp) (s' : Session)
    (hInv : StartedInv s) (h : submitAnswer s a eo fo o now = (.ok r, s')) :
    StartedInv s' := by
  obtain ⟨hncr, hdisj⟩ := hInv
  simp only [submitAnswer] at h
  split at h
  · simp at h
  · rename_i hc
    split at h
    · simp at h
    · rename_i slot hslot
      have hlen : s.slots.length = s.currentSlotIndex + 1 :=
        (startedInv_slot_some s slot ⟨hncr, hdisj⟩ hslot).2
      split at h
      · split at h
        · simp at h
        · split at h
          · simp at h
          · split at h
            · simp at h
            · exact submitAnswerContinue_ok_inv _ _ _ _ _ _ _ _ (by simp [hlen]) h
      · split at h
        · simp at h
        · split at h <;> (try split at h) <;>
            exact submitAnswerContinue_ok_inv _ _ _ _ _ _ _ _ (by simp [hlen]) h

/-- A successful `startInterview` against a slot-free session (the shape
`createSession` produces) establishes the invariant. -/
theorem startInterview_ok_inv (s : Session) (oq : Except Unit String) (now : Nat)
    (r : EngineResp) (s' : Session) (hcre : s.slots.length = 0)
    (h : startInterview s oq now = (.ok r, s')) : StartedInv s' := by
  simp only [startInterview] at h
  split at h
  · simp at h
  · split at h
    · simp at h
    · simp only [Prod.mk.injEq] at h
      obtain ⟨-, hs'⟩ := h
      subst hs'
      exact ⟨by simp, Or.inr ⟨by simp, by simp [hcre]⟩⟩

/-- Invariant step: `startInterview` cannot succeed against a session satisfying the
invariant (which excludes `CREATED`). -/
theorem startInterview_ok_inv_step (s : Session) (oq : Except Unit String) (now : Nat)
    (r : EngineResp) (s' : Session) (hInv : StartedInv s)
    (h : startInterview s oq now = (.ok r, s')) : StartedInv s' := by
  obtain ⟨hncr, -⟩ := hInv
  simp only [startInterview] at h
  split at h
  · simp at h
  · rename_i hcr
    exact absurd (by simpa using hcr) hncr

/-- A successful `submitMCQAnswer` preserves the invariant. -/
theorem submitMCQAnswer_ok_inv (s : Session) (sel : String) (t : ℚ)
    (fo : Except Unit String) (now : Nat) (r : EngineResp) (s' : Session)
    (hInv : StartedInv s) (h : submitMCQAnswer s sel t fo now = (.ok r, s')) :
    StartedInv s' := by
  obtain ⟨hncr, hdisj⟩ := hInv
  simp only [submitMCQAnswer] at h
  split at h
  · simp at h
  · rename_i hmcq
    have hc : s.state ≠ SState.COMPLETED := by
      intro hc
      rw [hc] at hmcq
      simp at hmcq
    have hlen : s.slots.length = s.currentSlotIndex + 1 := by
      rcases hdisj with ⟨hcc, -⟩ | ⟨-, hl⟩
      · exact absurd hcc hc
      · exact hl
    split at h
    · simp at h
    · split at h
      · simp at h
      · simp only [Prod.mk.injEq] at h
        obtain ⟨-, hs'⟩ := h
        subst hs'
        exact ⟨by simp, Or.inr ⟨by simp, by simp [hlen]⟩⟩

/-- A successful `submitMCQJustification` preserves the invariant. -/
theorem submitMCQJustification_ok_inv (s : Session) (j : String)
    (eo : Except Unit Evaluation) (o : NextSlotOracle) (now : Nat)
    (r : EngineResp) (s' : Session)
    (hInv : StartedInv s) (h : submitMCQJustification s j eo o now = (.ok r, s')) :
    StartedInv s' := by
  simp only [submitMCQJustification] at h
  split at h
  · simp at h
  · split at h
    · simp at h
    · split at h
      · simp at h
      · split at h
        · simp at h
        · rename_i slot hslot
          have hlen : s.slots.length = s.currentSlotIndex + 1 :=
            (startedInv_slot_some s slot hInv hslot).2
          exact advance_ok_inv _ _ _ _ _ (Or.inl (by simp [hlen])) h

/-- A successful `submitCode` preserves the invariant. -/
theorem submitCode_ok_inv (s : Session) (c e : String) (b : Option BehaviorData)
    (eo : Except Unit CodingEvalObj) (o : NextSlotOracle) (now : Nat)
    (r : EngineResp) (s' : Session)
    (hInv : StartedInv s) (h : submitCode s c e b eo o now = (.ok r, s')) :
    StartedInv s' := by
  simp only [submitCode] at h
  split at h
  · simp at h
  · split at h
    · simp at h
    · split at h
      · simp at h
      · rename_i slot hslot
        have hlen : s.slots.length = s.currentSlotIndex + 1 :=
          (startedInv_slot_some s slot hInv hslot).2
        exact advance_ok_inv _ _ _ _ _ (Or.inl (by simp [hlen])) h

/-- A successful `triggerCodingInterruption` preserves the invariant. -/
theorem triggerCodingInterruption_ok_inv (s : Session) (cc : String)
    (oq : Except Unit String) (now : Nat) (r : EngineResp) (s' : Session)
    (hInv : StartedInv s) (h : triggerCodingInterruption s cc oq now = (.ok r, s')) :
    StartedInv s' := by
  simp only [triggerCodingInterruption] at h
  split at h
  · simp only [Prod.mk.injEq] at h
    obtain ⟨-, hs'⟩ := h
    subst hs'
    exact hInv
  · split at h
    · simp at h
    · split at h
      · simp at h
      · split at h
        · simp at h
        · rename_i slot hslot
          have hlen : s.slots.length = s.currentSlotIndex + 1 :=
            (startedInv_slot_some s slot hInv hslot).2
          simp only [Prod.mk.injEq] at h
          obtain ⟨-, hs'⟩ := h
          subst hs'
          exact ⟨by simp, Or.inr ⟨by simp, by simp [hlen]⟩⟩

/-- A successful `submitInterruptionResponse` preserves the invariant. -/
theorem submitInterruptionResponse_ok_inv (s : Session) (rsp : String) (now : Nat)
    (r : EngineResp) (s' : Session)
    (hInv : StartedInv s) (h : submitInterruptionResponse s rsp now = (.ok r, s')) :
    StartedInv s' := by
  simp only [submitInterruptionResponse] at h
  split at h
  · simp at h
  · rename_i slot hslot
    have hlen : s.slots.length = s.currentSlotIndex + 1 :=
      (startedInv_slot_some s slot hInv hslot).2
    simp only [Prod.mk.injEq] at h
    obtain ⟨-, hs'⟩ := h
    subst hs'
    exact ⟨by simp, Or.inr ⟨by simp, by simp [hlen]⟩⟩

/-- A successful `skipQuestion` preserves the invariant. -/
theorem skipQuestion_ok_inv (s : Session) (o : NextSlotOracle) (now : Nat)
    (r : EngineResp) (s' : Session)
    (hInv : StartedInv s) (h : skipQuestion s o now = (.ok r, s')) :
    StartedInv s' := by
  obtain ⟨-, hdisj⟩ := hInv
  simp only [skipQuestion] at h
  split at h
  · refine advance_ok_inv _ _ _ _ _ ?_ h
    rcases hdisj with ⟨-, hge, hlen⟩ | ⟨-, hlen⟩
    · exact Or.inr ⟨hge, hlen⟩
    · exact Or.inl hlen
  · refine advance_ok_inv _ _ _ _ _ ?_ h
    rcases hdisj with ⟨-, hge, hlen⟩ | ⟨-, hlen⟩
    · exact Or.inr ⟨by simpa using hge, by simpa using hlen⟩
    · exact Or.inl (by simpa using hlen)

/-- One successful engine operation: a normal return, no throw. -/
inductive OkStep : Session → Session → Prop where
  | start (s : Session) (oq : Except Unit String) (now : Nat) (r : EngineResp) (s' : Session) :
      startInterview s oq now = (.ok r, s') → OkStep s s'
  | answer (s : Session) (a : String) (eo : Except Unit Evaluation) (fo : Except Unit String)
      (o : NextSlotOracle) (now : Nat) (r : EngineResp) (s' : Session) :
      submitAnswer s a eo fo o now = (.ok r, s') → OkStep s s'
  | mcqAnswer (s : Session) (sel : String) (t : ℚ) (fo : Except Unit String) (now : Nat)
      (r : EngineResp) (s' : Session) :
      submitMCQAnswer s sel t fo now = (.ok r, s') → OkStep s s'
  | mcqJustify (s : Session) (j : String) (eo : Except Unit Evaluation) (o : NextSlotOracle)
      (now : Nat) (r : EngineResp) (s' : Session) :
      submitMCQJustification s j eo o now = (.ok r, s') → OkStep s s'
  | code (s : Session) (c e : String) (b : Option BehaviorData) (eo : Except Unit CodingEvalObj)
      (o : NextSlotOracle) (now : Nat) (r : EngineResp) (s' : Session) :
      submitCode s c e b eo o now = (.ok r, s') → OkStep s s'
  | interrupt (s : Session) (cc : String) (oq : Except Unit String) (now : Nat)
      (r : EngineResp) (s' : Session) :
      triggerCodingInterruption s cc oq now = (.ok r, s') → OkStep s s'
  | interruptResp (s : Session) (rsp : String) (now : Nat) (r : EngineResp) (s' : Session) :
      submitInterruptionResponse s rsp now = (.ok r, s') → OkStep s s'
  | skip (s : Session) (o : NextSlotOracle) (now : Nat) (r : EngineResp) (s' : Session) :
      skipQuestion s o now = (.ok r, s') → OkStep s s'

/-- Sessions reached from a successfully started fresh session through
successful operations only. -/
inductive OkReach : Session → Prop where
  | start (id role nm diff : String) (now : Nat) (oq : Except Unit String) (now2 : Nat)
      (r : EngineResp) (s' : Session) :
      startInterview (createSession id role nm diff now) oq now2 = (.ok r, s') → OkReach s'
  | step (s s' : Session) : OkReach s → OkStep s s' → OkReach s'

/-- Every session reached through successful operations satisfies the
started-session invariant. -/
theorem okReach_startedInv (s : Session) (h : OkReach s) : StartedInv s := by
  induction h with
  | start id role nm diff now oq now2 r s' hok =>
    exact startInterview_ok_inv (createSession id role nm diff now) oq now2 r s' rfl hok
  | step s s' hr hstep ih =>
    cases hstep with
    | start oq now r s2 hok => exact startInterview_ok_inv_step _ _ _ _ _ ih hok
    | answer a eo fo o now r s2 hok => exact submitAnswer_ok_inv _ _ _ _ _ _ _ _ ih hok
    | mcqAnswer sel t fo now r s2 hok => exact submitMCQAnswer_ok_inv _ _ _ _ _ _ _ ih hok
    | mcqJustify j eo o now r s2 hok => exact submitMCQJustification_ok_inv _ _ _ _ _ _ _ ih hok
    | code c e b eo o now r s2 hok => exact submitCode_ok_inv _ _ _ _ _ _ _ _ _ ih hok
    | interrupt cc oq now r s2 hok => exact triggerCodingInterruption_ok_inv _ _ _ _ _ _ ih hok
    | interruptResp rsp now r s2 hok => exact submitInterruptionResponse_ok_inv _ _ _ _ _ ih hok
    | skip o now r s2 hok => exact skipQuestion_ok_inv _ _ _ _ _ ih hok

/-- Claim C7 (amended): across every operation applied to a reachable
session the cursor `currentSlotIndex` never decreases; and for every
session reached from a successful `startInterview` through operations
that all succeeded, `slots.length = currentSlotIndex + 1` holds while
the session is not `COMPLETED`.  (As stated the claim also covered the
`CREATED` phase and failed operations, where the equation does not
hold — see the counterexample.) -/
theorem c7_cursor_monotone_and_length_invariant :
    (∀ s s', ReachableS s → EngineStep s s' → s.currentSlotIndex ≤ s'.currentSlotIndex) ∧
    (∀ s, OkReach s → s.state ≠ SState.COMPLETED →
      s.slots.length = s.currentSlotIndex + 1) := by
  constructor
  · intro s s' hr hstep
    cases hstep with
    | start oq now => exact startInterview_idx_ge s oq now (reachable_created_idx s hr)
    | answer a eo fo o now => exact submitAnswer_idx_ge s a eo fo o now
    | mcqAnswer sel t fo now => exact submitMCQAnswer_idx_ge s sel t fo now
    | mcqJustify j eo o now => exact submitMCQJustification_idx_ge s j eo o now
    | code c e b eo o now => exact submitCode_idx_ge s c e b eo o now
    | interrupt cc oq now => exact triggerCodingInterruption_idx_ge s cc oq now
    | interruptResp rsp now => exact submitInterruptionResponse_idx_ge s rsp now
    | skip o now => exact skipQuestion_idx_ge s o now
  · intro s hr hc
    rcases okReach_startedInv s hr with ⟨-, ⟨hcc, -⟩ | ⟨-, hlen⟩⟩
    · exact absurd hcc hc
    · exact hlen

/-- Witness for C7 (amended) at the concrete started session. -/
theorem c7_cursor_monotone_and_length_invariant_witness :
    demoStarted.currentSlotIndex ≤ (skipQuestion demoStarted okNextOracle 0).2.currentSlotIndex ∧
    demoStarted.slots.length = demoStarted.currentSlotIndex + 1 :=
  ⟨c7_cursor_monotone_and_length_invariant.1 demoStarted _
      (ReachableS.step _ _ (ReachableS.create "sid" "Backend Developer" "Alex" "medium" 0)
        (EngineStep.start _ (.ok "Q1") 0))
      (EngineStep.skip _ okNextOracle 0),
   c7_cursor_monotone_and_length_invariant.2 demoStarted
      (OkReach.start "sid" "Backend Developer" "Alex" "medium" 0 (.ok "Q1") 0
        (EngineResp.started "Q1" 1) demoStarted rfl)
      (by decide)⟩

/-- Counterexample for C7 as stated: a freshly created session is
reachable and not `COMPLETED`, yet stores no slots while its cursor is
0, so `slots.length = currentSlotIndex + 1` fails. -/
theorem c7_created_session_violates_length :
    ReachableS demoCreated ∧
    demoCreated.state ≠ SState.COMPLETED ∧
    demoCreated.slots.length = 0 ∧
    demoCreated.currentSlotIndex = 0 ∧
    demoCreated.slots.length ≠ demoCreated.currentSlotIndex + 1 :=
  ⟨ReachableS.create "sid" "Backend Developer" "Alex" "medium" 0,
   by decide, rfl, rfl, by decide⟩

end InterviewAI
